import Mathlib

set_option maxHeartbeats 1000000

/-!
Shallow embedding of the Parasut-Odoo synchronization module
(models/res_config_settings.py and models/parasut_connector.py).

Conventions used throughout:
* Python floats are modelled as rationals (`Rat`); the monetary and rate
  values handled by the module are small decimals, for which rational
  arithmetic agrees with the float computations performed by the source.
* Odoo recordsets are modelled as lists in id order (creation order);
  `search(..., limit=1)` with the default ordering is the first list
  element satisfying the predicate, and a freshly created record is
  appended at the end of the list.
* A record written through `write` is identified by its list index.
-/

/-- First index of an element satisfying `p`, as Odoo `search(..., limit=1)`
on records kept in id order. -/
def searchIdx {α : Type} (p : α → Prop) [DecidablePred p] : List α → Option Nat
  | [] => Option.none
  | a :: l => if p a then some 0 else (searchIdx p l).map (· + 1)

/-- First element satisfying `p` (Odoo `search(..., limit=1)` when only the
record value matters). -/
def findFirst {α : Type} (p : α → Prop) [DecidablePred p] : List α → Option α
  | [] => Option.none
  | a :: l => if p a then some a else findFirst p l

/-- Propositional filter (Odoo `search` returning every match, in id
order). -/
def filterP {α : Type} (p : α → Prop) [DecidablePred p] : List α → List α
  | [] => []
  | a :: l => if p a then a :: filterP p l else filterP p l

/-- Minimum of a list under a strict order `lt`, keeping the earliest element
on ties: the first record returned by an ordered Odoo `search`. -/
def firstByOrder {α : Type} (lt : α → α → Prop) [DecidableRel lt] (l : List α) : Option α :=
  l.foldl
    (fun acc t =>
      match acc with
      | Option.none => some t
      | some b => if lt t b then some t else some b)
    Option.none

/-- Fuelled decimal rendering helper; the fuel is only there to make the
recursion structural and never runs out when it exceeds `n`. -/
def natStrCharsAux : Nat → Nat → List Char
  | 0, _ => []
  | fuel + 1, n =>
    let d := Nat.digitChar (n % 10)
    if n < 10 then [d] else natStrCharsAux fuel (n / 10) ++ [d]

/-- Decimal digit list of `n`, most significant first: the characters of the
Python rendering `str(n)` of a nonnegative integer. -/
def natStrChars (n : Nat) : List Char := natStrCharsAux (n + 1) n

/-- Python `str(n)` for a nonnegative integer `n`. -/
def natStr (n : Nat) : String := ⟨natStrChars n⟩

/-- Python truthiness of an optional string (`None` and the empty string are
falsy). -/
def strTruthy : Option String → Bool
  | Option.none => false
  | some s => s ≠ ""

/-- Python `a or b` for an optional string `a` and a string default `b`. -/
def strOr (a : Option String) (b : String) : String :=
  match a with
  | Option.none => b
  | some s => if s = "" then b else s

/-- Python `a or b` on two optional strings, keeping the result optional. -/
def strOrOpt (a b : Option String) : Option String :=
  match a with
  | Option.none => b
  | some s => if s = "" then b else some s

/-- `anySuffix f s` holds when `f` holds of some suffix of `s` (including `s`
itself and the empty suffix): the skipping behaviour of a percent wildcard. -/
def anySuffix (f : List Char → Bool) : List Char → Bool
  | [] => f []
  | c :: s => f (c :: s) || anySuffix f s

/-- SQL `LIKE` matching on character lists: a percent sign matches any
sequence of characters and an underscore matches one character. -/
def likeChars : List Char → List Char → Bool
  | [], s => s.isEmpty
  | '%' :: ps, s => anySuffix (likeChars ps) s
  | '_' :: ps, s =>
    (match s with
     | [] => false
     | _ :: s2 => likeChars ps s2)
  | p :: ps, s =>
    (match s with
     | [] => false
     | c :: s2 => p == c && likeChars ps s2)

/-- Lower-casing by code point (`str.lower()` restricted to ASCII letters,
which is all the module compares). -/
def lowerStr (s : String) : String := ⟨s.data.map Char.toLower⟩

/-- Upper-casing by code point (`str.upper()` restricted to ASCII letters). -/
def upperStr (s : String) : String := ⟨s.data.map Char.toUpper⟩

/-- Python slice `s[:n]` (by code point). -/
def takeStr (n : Nat) (s : String) : String := ⟨s.data.take n⟩

/-- Python `s.replace(" ", "")`: drop every space. -/
def dropSpaces (s : String) : String := ⟨s.data.filter (fun c => c ≠ ' ')⟩

/-- Python `s.startswith(p)`. -/
def startsWithStr (p s : String) : Bool := p.data.isPrefixOf s.data

/-- Case-insensitive SQL pattern match: Odoo operator `=ilike`. -/
def eqIlike (pattern s : String) : Bool :=
  likeChars (lowerStr pattern).data (lowerStr s).data

/-- Case-insensitive containment: Odoo operator `ilike` wraps the term in
percent wildcards. -/
def ilike (term s : String) : Bool :=
  eqIlike ("%" ++ term ++ "%") s

/-! ## Python attribute values -/

/-- A JSON attribute value as the module consumes it: `null`, a number, or a
string. -/
inductive PyVal where
  | none
  | num (q : Rat)
  | str (s : String)
deriving DecidableEq

/-- Python truthiness of an attribute value. -/
def pyTruthy : PyVal → Bool
  | PyVal.none => false
  | PyVal.num q => q ≠ 0
  | PyVal.str s => s ≠ ""

/-- Value of an all-digit character list (`some 0` on the empty list, so that
integer and fractional parts of a decimal literal can each be empty). -/
def digitsVal? (cs : List Char) : Option Nat :=
  cs.foldl
    (fun acc c =>
      match acc with
      | Option.none => Option.none
      | some n => if c.isDigit then some (n * 10 + (c.toNat - 48)) else Option.none)
    (some 0)

/-- Split a character list at its first dot. -/
def splitDot : List Char → List Char × Option (List Char)
  | [] => ([], Option.none)
  | c :: rest =>
    if c = '.' then ([], some rest)
    else
      let (a, b) := splitDot rest
      (c :: a, b)

/-- Python `float(s)` on a plain decimal string literal with optional sign and
optional fractional part; any other string fails. Exponent, infinity and
surrounding-whitespace forms are never produced by the upstream API and are
not modelled. -/
def parseDec? (s : String) : Option Rat :=
  let (sgn, body) :=
    match s.data with
    | '-' :: rest => ((-1 : Rat), rest)
    | '+' :: rest => ((1 : Rat), rest)
    | cs => ((1 : Rat), cs)
  match splitDot body with
  | (intPart, Option.none) =>
    match intPart with
    | [] => Option.none
    | _ => (digitsVal? intPart).map (fun n => sgn * (n : Rat))
  | (intPart, some fracPart) =>
    if intPart = [] ∧ fracPart = [] then Option.none
    else
      match digitsVal? intPart, digitsVal? fracPart with
      | some a, some b => some (sgn * ((a : Rat) + (b : Rat) / (10 : Rat) ^ fracPart.length))
      | _, _ => Option.none

/-- Python `float(v)` on an attribute value; `Option.none` stands for the
`ValueError`/`TypeError` that the callers catch. -/
def pyFloat? : PyVal → Option Rat
  | PyVal.none => Option.none
  | PyVal.num q => some q
  | PyVal.str s => parseDec? s

/-- Python `float(v or 0)`. A truthy unparseable string would raise in Python;
every use site guards this helper behind a successfully parsed rate, so the
fallback to 0 in that branch is unreachable. -/
def pyFloatOrZero (v : PyVal) : Rat :=
  if pyTruthy v then (pyFloat? v).getD 0 else 0

/-- Python `int(q)`: truncation toward zero. -/
def pyInt (q : Rat) : Int := if q < 0 then Int.ceil q else Int.floor q

/-- Python `str(i)` for an integer. -/
def intStr (i : Int) : String :=
  if i < 0 then "-" ++ natStr i.natAbs else natStr i.natAbs

/-! ## PagedFetcher (`_fetch_from_parasut`, both variants)

`res_config_settings.py` lines 97-132 raise a `UserError` when a page request
fails, aborting the whole action; `parasut_connector.py` lines 47-86 log the
error and break, returning the batches collected so far.  The page oracle maps
a request (page size and page number) to either a transport/HTTP error or a
parsed JSON body.  The fuel argument only makes the recursion structural:
the loop itself stops at page 21 at the latest, so fuel 21 is never
exhausted. -/

/-- The query parameters of one page request: `page[size]` and `page[number]`.
Other query parameters are fixed per endpoint and do not influence paging. -/
structure FetchRequest where
  size : Nat
  number : Nat
deriving DecidableEq

/-- One parsed page body: `data`, `included` and `meta.page_count` (0 when the
server reports no page count, as `meta.get('page_count', 0)`). -/
structure PageResp (α : Type) where
  data : List α
  included : List α
  page_count : Nat
deriving DecidableEq

/-- One collected batch: `{'data': ..., 'included': ...}`. -/
structure Batch (α : Type) where
  data : List α
  included : List α
deriving DecidableEq

/-- Paging loop of `parasut_connector._fetch_from_parasut`: on error, break
and keep the batches collected so far. -/
def fetchConnectorAux {α : Type} (oracle : FetchRequest → Except String (PageResp α)) :
    Nat → Nat → List (Batch α)
  | 0, _ => []
  | fuel + 1, page =>
    match oracle ⟨25, page⟩ with
    | Except.error _ => []
    | Except.ok resp =>
      if resp.data.isEmpty then []
      else if resp.page_count ≤ page ∨ 20 < page then [⟨resp.data, resp.included⟩]
      else ⟨resp.data, resp.included⟩ :: fetchConnectorAux oracle fuel (page + 1)

/-- `parasut_connector._fetch_from_parasut`. -/
def fetchConnector {α : Type} (oracle : FetchRequest → Except String (PageResp α)) :
    List (Batch α) :=
  fetchConnectorAux oracle 21 1

/-- Paging loop of `res_config_settings._fetch_from_parasut`: on error, raise
`UserError` and abort the whole action. -/
def fetchSettingsAux {α : Type} (endpoint : String)
    (oracle : FetchRequest → Except String (PageResp α)) :
    Nat → Nat → Except String (List (Batch α))
  | 0, _ => Except.ok []
  | fuel + 1, page =>
    match oracle ⟨25, page⟩ with
    | Except.error e => Except.error ("Error fetching " ++ endpoint ++ ": " ++ e)
    | Except.ok resp =>
      if resp.data.isEmpty then Except.ok []
      else if resp.page_count ≤ page ∨ 20 < page then
        Except.ok [⟨resp.data, resp.included⟩]
      else
        match fetchSettingsAux endpoint oracle fuel (page + 1) with
        | Except.error e => Except.error e
        | Except.ok rest => Except.ok (⟨resp.data, resp.included⟩ :: rest)

/-- `res_config_settings._fetch_from_parasut`. -/
def fetchSettings {α : Type} (endpoint : String)
    (oracle : FetchRequest → Except String (PageResp α)) :
    Except String (List (Batch α)) :=
  fetchSettingsAux endpoint oracle 21 1

/-- The batch page `p` would contribute: `Option.none` when the request fails
or returns an empty primary set. -/
def batchAt? {α : Type} (oracle : FetchRequest → Except String (PageResp α)) (p : Nat) :
    Option (Batch α) :=
  match oracle ⟨25, p⟩ with
  | Except.error _ => Option.none
  | Except.ok resp => if resp.data.isEmpty then Option.none else some ⟨resp.data, resp.included⟩

/-- The page count the server reports on page `p` (0 on error). -/
def pageCountAt {α : Type} (oracle : FetchRequest → Except String (PageResp α)) (p : Nat) :
    Nat :=
  match oracle ⟨25, p⟩ with
  | Except.error _ => 0
  | Except.ok resp => resp.page_count

/-! ## TaxResolver (`_find_odoo_tax`, res_config_settings.py lines 140-240)

The model keeps the `account.tax` fields the function reads or writes.
Value-only fields of the created record (`amount_type`, `description`) are
not modelled.  The purchase-side account lookup of lines 194-199 computes an
account id that lines 233-237 never use, so it has no observable effect and
is omitted.  A freshly created tax gets the Odoo defaults `active = true` and
`sequence = 1`. -/

/-- The slice of an `account.tax` record the resolver touches. -/
structure AccountTax where
  tid : Nat
  name : String
  amount : Rat
  type_tax_use : String
  price_include : Bool
  include_base_amount : Bool
  active : Bool
  sequence : Nat
  tax_group_id : Option Nat
deriving DecidableEq

/-- An `account.tax.group` record. -/
structure TaxGroup where
  gid : Nat
  name : String
deriving DecidableEq

/-- The tax-related store state threaded through the resolver (it can create
or rewrite taxes). -/
structure TaxEnv where
  taxes : List AccountTax
  groups : List TaxGroup
  nextTaxId : Nat
deriving DecidableEq

/-- Replace the first element satisfying `p` (an Odoo `write` on the first
search result). -/
def updateFirst {α : Type} (p : α → Prop) [DecidablePred p] (f : α → α) : List α → List α
  | [] => []
  | a :: l => if p a then f a :: l else a :: updateFirst p f l

/-- `order='sequence'`. -/
def bySequence (a b : AccountTax) : Prop := a.sequence < b.sequence

instance : DecidableRel bySequence := fun a b => by
  unfold bySequence; infer_instance

/-- `order='type_tax_use desc, sequence'`. -/
def byUseDescSequence (a b : AccountTax) : Prop :=
  b.type_tax_use < a.type_tax_use ∨ (a.type_tax_use = b.type_tax_use ∧ a.sequence < b.sequence)

instance : DecidableRel byUseDescSequence := fun a b => by
  unfold byUseDescSequence; infer_instance

/-- Priority 1: exact amount (whole percentage or pre-divided fraction),
requested usage, inclusive only, active, ordered by sequence. -/
def taxPrio1 (taxes : List AccountTax) (rate : Rat) (use : String) : Option AccountTax :=
  firstByOrder bySequence (filterP (fun t : AccountTax =>
    (t.amount = rate ∨ t.amount = rate / 100) ∧ t.type_tax_use = use ∧
      t.price_include = true ∧ t.active = true) taxes)

/-- Priority 2: exact amount in any usage, inclusive only, active, ordered by
usage descending then sequence. -/
def taxPrio2 (taxes : List AccountTax) (rate : Rat) : Option AccountTax :=
  firstByOrder byUseDescSequence (filterP (fun t : AccountTax =>
    (t.amount = rate ∨ t.amount = rate / 100) ∧
      t.price_include = true ∧ t.active = true) taxes)

/-- Priority 3: name contains the integer form of the rate, inclusive only,
active, ordered by sequence. -/
def taxPrio3 (taxes : List AccountTax) (rate : Rat) : Option AccountTax :=
  firstByOrder bySequence (filterP (fun t : AccountTax =>
    ilike (intStr (pyInt rate)) t.name = true ∧
      t.price_include = true ∧ t.active = true) taxes)

/-- `_find_odoo_tax`: ultra-robust tax matching with auto-creation fallback.
Returns the matched or created tax, the inclusive flag, and the possibly
updated store. -/
def findOdooTax (env : TaxEnv) (vat_rate : PyVal) (type_tax_use : String) :
    Option AccountTax × Bool × TaxEnv :=
  if vat_rate = PyVal.none then (Option.none, false, env)
  else
    match pyFloat? vat_rate with
    | Option.none => (Option.none, false, env)
    | some rate =>
      if rate = 0 then (Option.none, false, env)
      else
        match taxPrio1 env.taxes rate type_tax_use with
        | some t => (some t, true, env)
        | Option.none =>
          match taxPrio2 env.taxes rate with
          | some t => (some t, true, env)
          | Option.none =>
            match taxPrio3 env.taxes rate with
            | some t => (some t, true, env)
            | Option.none =>
              let tax_name := "Paraşüt KDV %" ++ intStr (pyInt rate) ++ " (Dahil - Oto)"
              let tax_group_name := "KDV %" ++ intStr (pyInt rate)
              let group? :=
                match findFirst (fun g => eqIlike tax_group_name g.name = true) env.groups with
                | some g => some g
                | Option.none => findFirst (fun g => ilike "KDV" g.name = true) env.groups
              match findFirst (fun t => t.name = tax_name) env.taxes with
              | some t0 =>
                let t1 :=
                  { t0 with
                    active := true
                    price_include := true
                    include_base_amount := false
                    tax_group_id :=
                      match group? with
                      | some g => some g.gid
                      | Option.none => t0.tax_group_id }
                (some t1, true,
                  { env with
                    taxes := updateFirst (fun t => t.name = tax_name) (fun _ => t1) env.taxes })
              | Option.none =>
                let newTax : AccountTax :=
                  { tid := env.nextTaxId
                    name := tax_name
                    amount := rate
                    type_tax_use := type_tax_use
                    price_include := true
                    include_base_amount := false
                    active := true
                    sequence := 1
                    tax_group_id := group?.map (fun g => g.gid) }
                (some newTax, true,
                  { env with
                    taxes := env.taxes ++ [newTax]
                    nextTaxId := env.nextTaxId + 1 })

/-! ## External resources and the reference index -/

/-- A relationship pointer `{'type': ..., 'id': ...}`. -/
structure Ref where
  rtype : String
  rid : String
deriving DecidableEq

/-- The attribute keys the module reads from detail, contact, product and
header nodes, each optional as in the source JSON.  Numeric attributes are
kept as rationals (string-encoded numbers arriving from the API behave like
their parsed values under Python `float`); `vat_rate` is kept raw because
`_find_odoo_tax` must handle unparseable values. -/
structure NodeAttrs where
  name : Option String := Option.none
  title : Option String := Option.none
  product_name : Option String := Option.none
  item_name : Option String := Option.none
  service_name : Option String := Option.none
  description : Option String := Option.none
  quantity : Option Rat := Option.none
  unit_price : Option Rat := Option.none
  net_total : Option Rat := Option.none
  total : Option Rat := Option.none
  vat_amount : Option Rat := Option.none
  vat_rate : PyVal := PyVal.none
deriving DecidableEq

/-- An included side-resource node; `relProduct` is
`relationships.product.data` when present. -/
structure Node where
  ntype : String
  nid : String
  attrs : NodeAttrs := {}
  relProduct : Option Ref := Option.none
deriving DecidableEq

/-- `_find_in_included`: linear scan for an exact `(type, id)` match. -/
def findInIncluded (included : List Node) (type_name : String) (item_id : String) :
    Option Node :=
  findFirst (fun inc => inc.ntype = type_name ∧ inc.nid = item_id) included

/-! ## LineValuationEngine

The resilient price computation shared verbatim by
`_parse_purchase_bill_detail` (res_config_settings.py lines 285-310) and the
sales-invoice line loop (lines 540-562). -/

/-- Compute the line unit price from the detail attributes and the resolved
tax, exactly as the source does. -/
def resilientPriceUnit (tax : Option AccountTax) (is_inclusive : Bool)
    (vat_rate : PyVal) (a : NodeAttrs) : Rat :=
  let quantity := a.quantity.getD 1
  let qty := if quantity = 0 then 1 else quantity
  let raw_net := a.net_total.getD 0
  let raw_unit := a.unit_price.getD 0
  let raw_total := a.total.getD 0
  let raw_vat := a.vat_amount.getD 0
  match tax with
  | some _ =>
    if is_inclusive then
      let val_to_use :=
        if raw_total > 0 then raw_total
        else if raw_net > 0 then raw_net + raw_vat
        else raw_unit * (1 + pyFloatOrZero vat_rate / 100)
      val_to_use / qty
    else
      if raw_unit > 0 then raw_unit
      else if raw_net > 0 then raw_net / qty
      else (raw_total - raw_vat) / qty
  | Option.none =>
    let val_to_use :=
      if raw_unit > 0 then raw_unit
      else if raw_net > 0 then raw_net
      else raw_total
    if val_to_use = raw_unit then val_to_use else val_to_use / qty

/-- The inclusive-tax unit price exactly as the claim words it: gross total
divided by quantity when the total is NON-ZERO, else
`(net_total + vat_amount) / quantity` when the net total is non-zero, else
`unit_price * (1 + rate / 100)` divided by quantity. -/
def claimInclusiveUnitPrice (a : NodeAttrs) (rate : Rat) : Rat :=
  let quantity := a.quantity.getD 1
  let qty := if quantity = 0 then 1 else quantity
  if a.total.getD 0 ≠ 0 then a.total.getD 0 / qty
  else if a.net_total.getD 0 ≠ 0 then (a.net_total.getD 0 + a.vat_amount.getD 0) / qty
  else a.unit_price.getD 0 * (1 + rate / 100) / qty

/-- The inclusive-tax unit price with the claim amended to test positivity
instead of non-zeroness, matching the strict `> 0` comparisons of the
source. -/
def specInclusiveUnitPrice (a : NodeAttrs) (rate : Rat) : Rat :=
  let quantity := a.quantity.getD 1
  let qty := if quantity = 0 then 1 else quantity
  if a.total.getD 0 > 0 then a.total.getD 0 / qty
  else if a.net_total.getD 0 > 0 then (a.net_total.getD 0 + a.vat_amount.getD 0) / qty
  else a.unit_price.getD 0 * (1 + rate / 100) / qty

/-- The no-tax unit price exactly as the claim words it: choose `unit_price`
when present and non-zero, else `net_total`, else `total`; divide by quantity
unless the chosen value equals its own divided-by-quantity form. -/
def claimNoTaxUnitPrice (a : NodeAttrs) : Rat :=
  let quantity := a.quantity.getD 1
  let qty := if quantity = 0 then 1 else quantity
  let chosen :=
    match a.unit_price with
    | some u => if u ≠ 0 then u else if a.net_total.getD 0 ≠ 0 then a.net_total.getD 0 else a.total.getD 0
    | Option.none => if a.net_total.getD 0 ≠ 0 then a.net_total.getD 0 else a.total.getD 0
  if chosen = chosen / qty then chosen else chosen / qty

/-- The no-tax unit price with the claim amended to match the source: choose
the first strictly positive of `unit_price`, `net_total`, `total` (0 when all
fail); use it unchanged when it equals the raw `unit_price` value (absent read
as 0), otherwise divide by quantity. -/
def specNoTaxUnitPrice (a : NodeAttrs) : Rat :=
  let quantity := a.quantity.getD 1
  let qty := if quantity = 0 then 1 else quantity
  let chosen :=
    if a.unit_price.getD 0 > 0 then a.unit_price.getD 0
    else if a.net_total.getD 0 > 0 then a.net_total.getD 0
    else a.total.getD 0
  if chosen = a.unit_price.getD 0 then chosen else chosen / qty

/-! ## Contact sync (`action_sync_contacts`, res_config_settings.py 359-413)

The partner model keeps the three fields the matching chain reads
(`parasut_id`, `vat`, `name`); the remaining written fields (email, street,
city, phone, comment, ranks, is_company) are value-only and influence neither
matching nor counting, so they are not modelled.  A `write` overwrites all
modelled fields, as the source overwrites every mapped attribute. -/

/-- The match-relevant slice of a `res.partner` record. -/
structure Partner where
  parasut_id : Option String
  name : Option String
  vat : Option String
deriving DecidableEq

/-- The attributes of one contact resource the matching logic reads. -/
structure ContactAttrs where
  name : Option String
  tax_number : Option String
deriving DecidableEq

/-- One `contacts` resource: external id plus attributes. -/
structure ContactItem where
  pid : String
  attrs : ContactAttrs
deriving DecidableEq

/-- Partner store plus the per-run counters the action reports. -/
structure ContactsState where
  partners : List Partner
  created : Nat
  updated : Nat
deriving DecidableEq

/-- The `vals` dict built for one contact, restricted to the modelled
fields. -/
def contactVals (it : ContactItem) : Partner :=
  ⟨some it.pid, it.attrs.name, it.attrs.tax_number⟩

/-- Process one contact: match by `parasut_id`, then by `vat` when truthy,
then by `name`; write on a match, create otherwise. -/
def processContact (st : ContactsState) (it : ContactItem) : ContactsState :=
  let vals := contactVals it
  let m1 := searchIdx (fun p : Partner => p.parasut_id = some it.pid) st.partners
  let m2 :=
    match m1 with
    | some i => some i
    | Option.none =>
      if strTruthy vals.vat then searchIdx (fun p : Partner => p.vat = vals.vat) st.partners
      else Option.none
  let m3 :=
    match m2 with
    | some i => some i
    | Option.none => searchIdx (fun p : Partner => p.name = vals.name) st.partners
  match m3 with
  | some i =>
    { st with partners := st.partners.set i vals, updated := st.updated + 1 }
  | Option.none =>
    { st with partners := st.partners ++ [vals], created := st.created + 1 }

/-- `action_sync_contacts` over the concatenated page data (the contact loop
never reads the `included` sets, so batching is irrelevant). -/
def action_sync_contacts (items : List ContactItem) (st : ContactsState) : ContactsState :=
  items.foldl processContact st

/-! ## Invoice orchestrators

`action_sync_sales_invoices` (res_config_settings.py 457-600) and
`action_sync_purchase_bills` (932-1021) with `_parse_purchase_bill_detail`
(242-312).  Date fields of the created moves are value-only `or`-chains over
header attributes and are not modelled.  The `movesCreated` and
`partnersCreated` fields are observation counters for the create branches;
the source itself reports only `processed`. -/

/-- The slice of a `product.template` record the loops read. -/
structure ProductTemplate where
  parasut_id : Option String
  name : String
  variant_id : Nat
deriving DecidableEq

/-- One invoice line (`(0, 0, line_vals)`). -/
structure MoveLine where
  name : String
  quantity : Rat
  price_unit : Rat
  product_id : Option Nat := Option.none
  tax_ids : List Nat := []
deriving DecidableEq

/-- The slice of an `account.move` record the loops read and write. -/
structure Move where
  move_type : String
  parasut_id : String
  partner_id : Nat
  parasut_total_visual : Rat
  ref : String
  invoice_line_ids : List MoveLine
  state : String
deriving DecidableEq

/-- One `sales_invoices` resource. -/
structure SalesInvoiceItem where
  pid : String
  attrs : NodeAttrs
  relContact : Option Ref
  relDetails : List Ref
deriving DecidableEq

/-- One fetched sales page: primary items plus the included side-resources. -/
structure SalesBatch where
  data : List SalesInvoiceItem
  included : List Node
deriving DecidableEq

/-- One `purchase_bills` resource.  `relSupplier = Option.none` covers a null
`data` pointer; an item whose relationships lack the `supplier` key entirely
would raise `KeyError` at line 961 of the source and is not modelled. -/
structure PurchaseBillItem where
  pid : String
  attrs : NodeAttrs
  relSupplier : Option Ref
  relDetails : List Ref
deriving DecidableEq

/-- One fetched purchase page. -/
structure PurchaseBatch where
  data : List PurchaseBillItem
  included : List Node
deriving DecidableEq

/-- The store state threaded through the invoice orchestrators. -/
structure SyncState where
  moves : List Move
  partners : List Partner
  products : List ProductTemplate
  taxEnv : TaxEnv
  processed : Nat
  movesCreated : Nat
  partnersCreated : Nat
deriving DecidableEq

/-- Overwrite only the `parasut_id` of the partner at index `i` (the tier-2
backfill `partner_obj.parasut_id = contact_id`). -/
def backfillParasutId (partners : List Partner) (i : Nat) (c : String) : List Partner :=
  match partners[i]? with
  | some p0 => partners.set i { p0 with parasut_id := some c }
  | Option.none => partners

/-- Sales-invoice partner resolution (lines 476-509): match by stored
external id, else by the included contact name (backfilling the external id),
else create a partner from the included node.  Returns the resolved partner
index, the updated partner store, and how many partners were created. -/
def resolveSalesPartner (partners : List Partner) (included : List Node) (contact_id : String) :
    Option Nat × List Partner × Nat :=
  match searchIdx (fun p : Partner => p.parasut_id = some contact_id) partners with
  | some i => (some i, partners, 0)
  | Option.none =>
    let viaName :=
      match findInIncluded included "contacts" contact_id with
      | Option.none => Option.none
      | some node =>
        if strTruthy node.attrs.name then
          searchIdx (fun p : Partner => p.name = node.attrs.name) partners
        else Option.none
    match viaName with
    | some i => (some i, backfillParasutId partners i contact_id, 0)
    | Option.none =>
      match findInIncluded included "contacts" contact_id with
      | Option.none => (Option.none, partners, 0)
      | some node =>
        (some partners.length,
         partners ++ [⟨some contact_id, some (strOr node.attrs.name "Paraşüt Müşteri"), Option.none⟩],
         1)

/-- Build the sales invoice lines (lines 516-564), threading the tax store
through `_find_odoo_tax`. -/
def buildSalesLines (products : List ProductTemplate) (included : List Node)
    (invAttrs : NodeAttrs) (rels : List Ref) (env : TaxEnv) : List MoveLine × TaxEnv :=
  rels.foldl
    (fun acc det =>
      match findInIncluded included "sales_invoice_details" det.rid with
      | Option.none => acc
      | some det_node =>
        let d := det_node.attrs
        let product_id :=
          match det_node.relProduct with
          | some pr =>
            (findFirst (fun p : ProductTemplate => p.parasut_id = some pr.rid) products).map
              (fun p => p.variant_id)
          | Option.none => Option.none
        let (tax, is_inclusive, env2) := findOdooTax acc.2 d.vat_rate "sale"
        let line : MoveLine :=
          { name := strOr d.description (strOr invAttrs.description "Sales Line")
            quantity := d.quantity.getD 1
            price_unit := resilientPriceUnit tax is_inclusive d.vat_rate d
            product_id := product_id
            tax_ids :=
              match tax with
              | some t => [t.tid]
              | Option.none => [] }
        (acc.1 ++ [line], env2))
    ([], env)

/-- Process one sales invoice (the body of the loop at lines 468-598). -/
def processSalesItem (included : List Node) (st : SyncState) (it : SalesInvoiceItem) :
    SyncState :=
  let existing :=
    searchIdx (fun m : Move => m.parasut_id = it.pid ∧ m.move_type = "out_invoice") st.moves
  match it.relContact with
  | Option.none => st
  | some cref =>
    match resolveSalesPartner st.partners included cref.rid with
    | (Option.none, _, _) => st
    | (some pi, partners2, pcreated) =>
      let (lines0, env2) := buildSalesLines st.products included it.attrs it.relDetails st.taxEnv
      let lines :=
        if lines0.isEmpty then
          [{ name := it.attrs.description.getD "Sale", quantity := 1,
             price_unit := it.attrs.net_total.getD 0 }]
        else lines0
      let mv : Move :=
        { move_type := "out_invoice"
          parasut_id := it.pid
          partner_id := pi
          parasut_total_visual := it.attrs.total.getD 0
          ref := "SLS-" ++ it.pid
          invoice_line_ids := lines
          state := "posted" }
      match existing with
      | some i =>
        { st with
          moves := st.moves.set i mv
          partners := partners2
          taxEnv := env2
          processed := st.processed + 1
          partnersCreated := st.partnersCreated + pcreated }
      | Option.none =>
        { st with
          moves := st.moves ++ [mv]
          partners := partners2
          taxEnv := env2
          processed := st.processed + 1
          movesCreated := st.movesCreated + 1
          partnersCreated := st.partnersCreated + pcreated }

/-- One sales page. -/
def processSalesBatch (st : SyncState) (b : SalesBatch) : SyncState :=
  b.data.foldl (processSalesItem b.included) st

/-- `action_sync_sales_invoices`. -/
def action_sync_sales_invoices (batches : List SalesBatch) (st : SyncState) : SyncState :=
  batches.foldl processSalesBatch st

/-- `_parse_purchase_bill_detail` (lines 242-312): line name resolution,
product linkage and the resilient price computation, threading the tax
store. -/
def parsePurchaseBillDetail (products : List ProductTemplate) (env : TaxEnv)
    (det_node : Node) (included : List Node) (invoice_attrs : NodeAttrs) :
    MoveLine × TaxEnv :=
  let d := det_node.attrs
  let pn0 := strOrOpt d.product_name (strOrOpt d.item_name d.service_name)
  let (product_name, product_id) :=
    if strTruthy pn0 then (pn0, (Option.none : Option Nat))
    else
      match det_node.relProduct with
      | Option.none => (pn0, Option.none)
      | some rel =>
        let prod_node :=
          match findInIncluded included rel.rtype rel.rid with
          | some n => some n
          | Option.none =>
            match findInIncluded included "products" rel.rid with
            | some n => some n
            | Option.none => findInIncluded included "product" rel.rid
        let nameFromNode :=
          match prod_node with
          | some pn => strOrOpt pn.attrs.name (strOrOpt pn.attrs.title pn.attrs.product_name)
          | Option.none => pn0
        match findFirst (fun p : ProductTemplate => p.parasut_id = some rel.rid) products with
        | some product =>
          (if strTruthy nameFromNode then nameFromNode else some product.name,
           some product.variant_id)
        | Option.none => (nameFromNode, Option.none)
  let (tax, is_inclusive, env2) := findOdooTax env d.vat_rate "purchase"
  let line : MoveLine :=
    { name :=
        strOr d.description
          (strOr d.name (strOr product_name (strOr invoice_attrs.description "Purchase Line")))
      quantity := d.quantity.getD 1
      price_unit := resilientPriceUnit tax is_inclusive d.vat_rate d
      product_id := product_id
      tax_ids :=
        match tax with
        | some t => [t.tid]
        | Option.none => [] }
  (line, env2)

/-- Purchase-bill partner resolution (lines 953-969): match by stored
external id, else create from the included contact node; no name tier.  A
node without a name raises `KeyError` in the source and is treated as
unresolved here. -/
def resolvePurchasePartner (partners : List Partner) (included : List Node)
    (relSupplier : Option Ref) : Option Nat × List Partner × Nat :=
  let first :=
    match relSupplier with
    | some sref => searchIdx (fun p : Partner => p.parasut_id = some sref.rid) partners
    | Option.none => Option.none
  match first with
  | some i => (some i, partners, 0)
  | Option.none =>
    match relSupplier with
    | Option.none => (Option.none, partners, 0)
    | some sref =>
      match findInIncluded included "contacts" sref.rid with
      | Option.none => (Option.none, partners, 0)
      | some node =>
        match node.attrs.name with
        | some nm => (some partners.length, partners ++ [⟨some sref.rid, some nm, Option.none⟩], 1)
        | Option.none => (Option.none, partners, 0)

/-- Build the purchase bill lines (lines 971-978). -/
def buildPurchaseLines (products : List ProductTemplate) (included : List Node)
    (invAttrs : NodeAttrs) (rels : List Ref) (env : TaxEnv) : List MoveLine × TaxEnv :=
  rels.foldl
    (fun acc det =>
      match findInIncluded included "purchase_bill_details" det.rid with
      | Option.none => acc
      | some det_node =>
        let (line, env2) := parsePurchaseBillDetail products acc.2 det_node included invAttrs
        (acc.1 ++ [line], env2))
    ([], env)

/-- Process one purchase bill (the body of the loop at lines 943-1019). -/
def processPurchaseItem (included : List Node) (st : SyncState) (it : PurchaseBillItem) :
    SyncState :=
  let existing :=
    searchIdx (fun m : Move => m.parasut_id = it.pid ∧ m.move_type = "in_invoice") st.moves
  match resolvePurchasePartner st.partners included it.relSupplier with
  | (Option.none, _, _) => st
  | (some pi, partners2, pcreated) =>
    let (lines0, env2) := buildPurchaseLines st.products included it.attrs it.relDetails st.taxEnv
    let lines :=
      if lines0.isEmpty then
        [{ name := it.attrs.description.getD "Bill", quantity := 1,
           price_unit := it.attrs.net_total.getD 0 }]
      else lines0
    let mv : Move :=
      { move_type := "in_invoice"
        parasut_id := it.pid
        partner_id := pi
        parasut_total_visual := it.attrs.total.getD 0
        ref := "PRS-" ++ it.pid
        invoice_line_ids := lines
        state := "posted" }
    match existing with
    | some i =>
      { st with
        moves := st.moves.set i mv
        partners := partners2
        taxEnv := env2
        processed := st.processed + 1
        partnersCreated := st.partnersCreated + pcreated }
    | Option.none =>
      { st with
        moves := st.moves ++ [mv]
        partners := partners2
        taxEnv := env2
        processed := st.processed + 1
        movesCreated := st.movesCreated + 1
        partnersCreated := st.partnersCreated + pcreated }

/-- One purchase page. -/
def processPurchaseBatch (st : SyncState) (b : PurchaseBatch) : SyncState :=
  b.data.foldl (processPurchaseItem b.included) st

/-- `action_sync_purchase_bills`. -/
def action_sync_purchase_bills (batches : List PurchaseBatch) (st : SyncState) : SyncState :=
  batches.foldl processPurchaseBatch st

/-! ## Synthetic journal code generation

`action_sync_accounts`, res_config_settings.py lines 344-353 (identical in
parasut_connector.py lines 116-123): derive a code from the account name and
append an incrementing counter to a 4-character truncation until the code is
free.  The fuel argument counts the attempts the loop is allowed; the claims
are about how much fuel guarantees termination. -/

/-- `code_base = name[:5].upper().replace(" ", "")`. -/
def journalCodeBase (name : String) : String := dropSpaces (upperStr (takeStr 5 name))

/-- The code tested on attempt `k`: the base itself first, then the
4-character truncation followed by the counter (the counter starts at 1). -/
def journalCand (base : String) (k : Nat) : String :=
  if k = 0 then base else takeStr 4 base ++ natStr k

/-- The generation loop, trying candidates `k, k + 1, ...` while the tested
code is taken, with at most `fuel` attempts. -/
def genCodeAux (existing : List String) (base : String) : Nat → Nat → Option String
  | 0, _ => Option.none
  | fuel + 1, k =>
    let code := journalCand base k
    if code ∈ existing then genCodeAux existing base fuel (k + 1) else some code

/-- Generate a journal code for `name` against the existing code set, with at
most `fuel` attempts. -/
def genJournalCode (name : String) (existing : List String) (fuel : Nat) : Option String :=
  genCodeAux existing (journalCodeBase name) fuel 0

/-! ## Payment sync

`action_sync_payments` in res_config_settings.py (1023-1141) and in
parasut_connector.py (335-405).  The oracle maps an endpoint and external id
to the parsed response of the detail follow-up call; the transaction oracle
models the secondary transaction fetch of the settings variant.  The event
trace records the `time.sleep(0.5)` calls and the per-payable detail
requests; the selection of open payables is a ledger-store query outside the
loop and is taken as input. -/

/-- Observable events of the payment loop. -/
inductive PayEvent where
  | sleep
  | detailRequest (endpoint : String) (pid : String)
deriving DecidableEq

/-- The slice of an open payable `account.move` the loop reads. -/
structure PayMove where
  mid : Nat
  ref : Option String
  parasut_id : String
deriving DecidableEq

/-- An included node of a payment detail response. -/
structure PayNode where
  ptype : String
  nid : String
  amount : Option Rat := Option.none
  date : Option String := Option.none
  relAccount : Option Ref := Option.none
  relTransaction : Option Ref := Option.none
deriving DecidableEq

/-- A parsed payment detail response. -/
structure PayResp where
  status : Nat
  paymentsRel : List Ref := []
  included : List PayNode := []
deriving DecidableEq

/-- A parsed transaction detail response. -/
structure TransResp where
  status : Nat
  included : List PayNode := []
deriving DecidableEq

/-- The slice of an `account.journal` record the loop reads. -/
structure Journal where
  jid : Nat
  parasut_id : Option String
  jtype : String
deriving DecidableEq

/-- One created `account.payment.register` run. -/
structure Registration where
  move_mid : Nat
  amount : Rat
  date : Option String
  journal_id : Nat
  communication : String
deriving DecidableEq

/-- The outcome of one payment sync run; `rateLimited` records whether the
run ended through the 429 early return. -/
structure PayOutcome where
  processed : Nat
  rateLimited : Bool
  registrations : List Registration
  events : List PayEvent
deriving DecidableEq

/-- Endpoint routing by reference-tag namespace (lines 1050-1055). -/
def parasutEndpoint (ref : Option String) : String :=
  let r := ref.getD ""
  if startsWithStr "MAAS-" r then "salaries"
  else if startsWithStr "VERGI-" r then "taxes"
  else "purchase_bills"

/-- First journal resolvable from the accounts nodes of a transaction
response (lines 1103-1108): scan for `accounts` nodes and stop at the first
one whose id has a linked journal. -/
def firstJournalFromIncluded (journals : List Journal) : List PayNode → Option Nat
  | [] => Option.none
  | inc :: rest =>
    if inc.ptype = "accounts" then
      match findFirst (fun j : Journal => j.parasut_id = some inc.nid) journals with
      | some j => some j.jid
      | Option.none => firstJournalFromIncluded journals rest
    else firstJournalFromIncluded journals rest

/-- Journal resolution of the settings variant (lines 1087-1117): transaction
lookup when the account relationship is missing, then the account
relationship, then the first bank journal. -/
def resolveJournalSettings (journals : List Journal) (transOracle : String → TransResp)
    (node : PayNode) : Option Nat :=
  let viaTrans :=
    match node.relAccount with
    | some _ => Option.none
    | Option.none =>
      match node.relTransaction with
      | Option.none => Option.none
      | some tr =>
        let t := transOracle tr.rid
        if t.status = 200 then firstJournalFromIncluded journals t.included
        else Option.none
  let viaAccount :=
    match viaTrans with
    | some j => some j
    | Option.none =>
      match node.relAccount with
      | some aref =>
        (findFirst (fun j : Journal => j.parasut_id = some aref.rid) journals).map (fun j : Journal => j.jid)
      | Option.none => Option.none
  match viaAccount with
  | some j => some j
  | Option.none => (findFirst (fun j : Journal => j.jtype = "bank") journals).map (fun j : Journal => j.jid)

/-- Journal resolution of the connector variant (lines 383-390): account
relationship, then the first bank journal. -/
def resolveJournalConnector (journals : List Journal) (node : PayNode) : Option Nat :=
  let viaAccount :=
    match node.relAccount with
    | some aref =>
      (findFirst (fun j : Journal => j.parasut_id = some aref.rid) journals).map (fun j : Journal => j.jid)
    | Option.none => Option.none
  match viaAccount with
  | some j => some j
  | Option.none => (findFirst (fun j : Journal => j.jtype = "bank") journals).map (fun j : Journal => j.jid)

/-- The per-payable payment registration loop of the settings variant (lines
1077-1135). -/
def registerPaymentsSettings (journals : List Journal) (transOracle : String → TransResp)
    (m : PayMove) (resp : PayResp) : List Registration :=
  resp.paymentsRel.foldl
    (fun acc pay_ref =>
      match findFirst (fun n : PayNode => n.ptype = "payments" ∧ n.nid = pay_ref.rid)
          resp.included with
      | Option.none => acc
      | some node =>
        match resolveJournalSettings journals transOracle node with
        | Option.none => acc
        | some jid =>
          acc ++ [{ move_mid := m.mid, amount := node.amount.getD 0, date := node.date,
                    journal_id := jid,
                    communication := m.ref.getD "" ++ " - Ödeme: " ++ pay_ref.rid }])
    []

/-- The per-payable payment registration loop of the connector variant (lines
374-401). -/
def registerPaymentsConnector (journals : List Journal) (m : PayMove) (resp : PayResp) :
    List Registration :=
  resp.paymentsRel.foldl
    (fun acc pay_ref =>
      match findFirst (fun n : PayNode => n.ptype = "payments" ∧ n.nid = pay_ref.rid)
          resp.included with
      | Option.none => acc
      | some node =>
        match resolveJournalConnector journals node with
        | Option.none => acc
        | some jid =>
          acc ++ [{ move_mid := m.mid, amount := node.amount.getD 0, date := node.date,
                    journal_id := jid,
                    communication := m.ref.getD "" ++ " - Pay: " ++ pay_ref.rid }])
    []

/-- The settings payment loop: sleep, fetch, abort on 429, skip on other
non-200 statuses and on payables without payments, register otherwise.  A
payable only counts as processed when its whole registration loop ran. -/
def settingsPayLoop (oracle : String → String → PayResp) (transOracle : String → TransResp)
    (journals : List Journal) (acc : PayOutcome) : List PayMove → PayOutcome
  | [] => acc
  | m :: rest =>
    let e := parasutEndpoint m.ref
    let acc1 :=
      { acc with events := acc.events ++ [PayEvent.sleep, PayEvent.detailRequest e m.parasut_id] }
    let resp := oracle e m.parasut_id
    if resp.status = 429 then { acc1 with rateLimited := true }
    else if resp.status ≠ 200 then settingsPayLoop oracle transOracle journals acc1 rest
    else if resp.paymentsRel.isEmpty then settingsPayLoop oracle transOracle journals acc1 rest
    else
      settingsPayLoop oracle transOracle journals
        { acc1 with
          registrations := acc1.registrations ++ registerPaymentsSettings journals transOracle m resp
          processed := acc1.processed + 1 }
        rest

/-- `res_config_settings.action_sync_payments` over a given list of open
payables. -/
def action_sync_payments_settings (oracle : String → String → PayResp)
    (transOracle : String → TransResp) (journals : List Journal)
    (payables : List PayMove) : PayOutcome :=
  settingsPayLoop oracle transOracle journals ⟨0, false, [], []⟩ payables

/-- The connector payment loop: no sleep, no 429 branch; any non-200 status
skips to the next payable. -/
def connectorPayLoop (oracle : String → String → PayResp) (journals : List Journal)
    (acc : PayOutcome) : List PayMove → PayOutcome
  | [] => acc
  | m :: rest =>
    let e := parasutEndpoint m.ref
    let acc1 := { acc with events := acc.events ++ [PayEvent.detailRequest e m.parasut_id] }
    let resp := oracle e m.parasut_id
    if resp.status ≠ 200 then connectorPayLoop oracle journals acc1 rest
    else if resp.paymentsRel.isEmpty then connectorPayLoop oracle journals acc1 rest
    else
      connectorPayLoop oracle journals
        { acc1 with
          registrations := acc1.registrations ++ registerPaymentsConnector journals m resp
          processed := acc1.processed + 1 }
        rest

/-- `parasut_connector.action_sync_payments` over a given list of open
payables. -/
def action_sync_payments_connector (oracle : String → String → PayResp)
    (journals : List Journal) (payables : List PayMove) : PayOutcome :=
  connectorPayLoop oracle journals ⟨0, false, [], []⟩ payables

/-! ## Concrete instances used by the claim theorems -/

/-- An operator-configured inclusive sale tax stored as a whole percentage,
with a name that does not contain the digit 0. -/
def tax20pct : AccountTax :=
  ⟨1, "KDV Yirmi", 20, "sale", true, false, true, 1, Option.none⟩

/-- An inclusive sale tax stored as a pre-divided fraction. -/
def taxFifth : AccountTax :=
  ⟨1, "KDV Dahil", 1 / 5, "sale", true, false, true, 1, Option.none⟩

/-- A store holding only `tax20pct`. -/
def envYirmi : TaxEnv := ⟨[tax20pct], [], 2⟩

/-- An inclusive sale tax whose stored amount is one five-hundredth: the
amount the resolver searches for when it re-divides a pre-divided rate. -/
def tax0002 : AccountTax :=
  ⟨2, "Binde Iki", 1 / 500, "sale", true, false, true, 1, Option.none⟩

/-- A store holding `tax20pct` and `tax0002`. -/
def envDual : TaxEnv := ⟨[tax20pct, tax0002], [], 3⟩

/-- A page oracle whose every page succeeds with a nonempty primary set and a
large reported page count. -/
def allPagesOracle : FetchRequest → Except String (PageResp Nat) :=
  fun r => Except.ok ⟨[r.number], [], 50⟩

/-- A page oracle reporting five pages whose second request fails. -/
def failPage2Oracle {α : Type} (d i : List α) (msg : String) :
    FetchRequest → Except String (PageResp α) :=
  fun r => if r.number = 1 then Except.ok ⟨d, i, 5⟩ else Except.error msg

/-- A page oracle for a complete one-page dataset with the same first page. -/
def onePageOracle {α : Type} (d i : List α) : FetchRequest → Except String (PageResp α) :=
  fun r => if r.number = 1 then Except.ok ⟨d, i, 1⟩ else Except.ok ⟨[], [], 1⟩

/-- Compatibility of two contact records: distinct external ids, distinct
names, and no shared truthy tax number. -/
def contactCompat (a b : ContactItem) : Prop :=
  a.pid ≠ b.pid ∧ a.attrs.name ≠ b.attrs.name ∧
    ¬(strTruthy a.attrs.tax_number = true ∧ a.attrs.tax_number = b.attrs.tax_number)

instance (a b : ContactItem) : Decidable (contactCompat a b) := by
  unfold contactCompat; infer_instance

/-- Three contacts whose overlapping tax numbers and names chain the matching
tiers together. -/
def ctChainItems : List ContactItem :=
  [⟨"1", ⟨some "N", some "V"⟩⟩, ⟨"2", ⟨some "M", some "V"⟩⟩, ⟨"3", ⟨some "M", some "U"⟩⟩]

/-- Every detail request in the trace is immediately preceded by a sleep. -/
def sleepPrecedes (evs : List PayEvent) : Prop :=
  ∀ i e p, evs[i]? = some (PayEvent.detailRequest e p) →
    ∃ k, i = k + 1 ∧ evs[k]? = some PayEvent.sleep

/-- A payment oracle answering 429 for external id `A` and an empty 200
otherwise. -/
def pay429Oracle : String → String → PayResp :=
  fun _ pid => if pid = "A" then ⟨429, [], []⟩ else ⟨200, [], []⟩

/-- A transaction oracle that always fails. -/
def noTransOracle : String → TransResp := fun _ => ⟨404, []⟩

/-- Two open payables routed to the bills endpoint. -/
def payMoveA : PayMove := ⟨1, Option.none, "A"⟩

/-- Second payable. -/
def payMoveB : PayMove := ⟨2, Option.none, "B"⟩

/-- The outcome of the settings payment loop on `[payMoveB]` against
`pay429Oracle`: an empty 200 response, nothing processed. -/
def payOutB : PayOutcome :=
  ⟨0, false, [], [PayEvent.sleep, PayEvent.detailRequest "purchase_bills" "B"]⟩

/-- Two contacts with distinct ids, names and tax numbers. -/
def ctOkItems : List ContactItem :=
  [⟨"1", ⟨some "X", some "V1"⟩⟩, ⟨"2", ⟨some "Y", some "V2"⟩⟩]

/-- A one-page sales dataset whose single invoice references a contact whose
node is included. -/
def salesWitBatches : List SalesBatch :=
  [⟨[⟨"7", {}, some ⟨"contacts", "C1"⟩, []⟩],
    [⟨"contacts", "C1", { name := some "Alice" }, Option.none⟩]⟩]

/-- An empty store state for the invoice orchestrators. -/
def emptySyncState : SyncState := ⟨[], [], [], ⟨[], [], 1⟩, 0, 0, 0⟩

/-! # Theorems

Generic helper lemmas first, then one theorem per claim (with its witness or
counterexample). -/

theorem natStrChars_ne_nil (n : Nat) : natStrChars n ≠ [] := by
  simp only [natStrChars, natStrCharsAux]
  split <;> simp

theorem searchIdx_some {α : Type} (p : α → Prop) [DecidablePred p] :
    ∀ (l : List α) (i : Nat), searchIdx p l = some i →
      ∃ h : i < l.length, p (l.get ⟨i, h⟩) := by
  intro l
  induction l with
  | nil => intro i h; simp [searchIdx] at h
  | cons a t ih =>
    intro i h
    by_cases hpa : p a
    · simp [searchIdx, hpa] at h
      subst h
      exact ⟨by simp, hpa⟩
    · simp [searchIdx, hpa] at h
      obtain ⟨j, hj, rfl⟩ := h
      obtain ⟨hlt, hp⟩ := ih j hj
      exact ⟨by simpa using Nat.succ_lt_succ hlt, hp⟩

theorem searchIdx_isSome_of_mem {α : Type} (p : α → Prop) [DecidablePred p]
    {l : List α} {a : α} (ha : a ∈ l) (hpa : p a) : (searchIdx p l).isSome := by
  induction l with
  | nil => cases ha
  | cons b t ih =>
    by_cases hpb : p b
    · simp [searchIdx, hpb]
    · rcases List.mem_cons.mp ha with rfl | hat
      · exact absurd hpa hpb
      · simp only [searchIdx, if_neg hpb]
        have := ih hat
        rcases h : searchIdx p t with _ | j
        · rw [h] at this; simp at this
        · simp

theorem searchIdx_eq_none {α : Type} (p : α → Prop) [DecidablePred p]
    {l : List α} : searchIdx p l = Option.none ↔ ∀ a ∈ l, ¬ p a := by
  induction l with
  | nil => simp [searchIdx]
  | cons a t ih =>
    by_cases hpa : p a
    · simp [searchIdx, hpa]
    · simp [searchIdx, hpa, ih]

theorem findFirst_eq_none {α : Type} (p : α → Prop) [DecidablePred p]
    {l : List α} : findFirst p l = Option.none ↔ ∀ a ∈ l, ¬ p a := by
  induction l with
  | nil => simp [findFirst]
  | cons a t ih =>
    by_cases hpa : p a
    · simp [findFirst, hpa]
    · simp [findFirst, hpa, ih]

theorem searchIdx_lt_length {α : Type} (p : α → Prop) [DecidablePred p]
    {l : List α} {i : Nat} (h : searchIdx p l = some i) : i < l.length :=
  (searchIdx_some p l i h).1

theorem pyFloatOrZero_num (r : Rat) : pyFloatOrZero (PyVal.num r) = r := by
  by_cases h : r = 0 <;> simp [pyFloatOrZero, pyTruthy, pyFloat?, h]

/-- C3 counterexample: on a line with a negative gross total
(`{quantity: 1, total: -120}`) and a resolved inclusive 20% tax, the source
computes unit price 0 (its comparison is strictly `> 0`), while the claim
formula (gross total divided by quantity when the total is non-zero) gives
-120. -/
theorem C3_counterexample :
    resilientPriceUnit (some tax20pct) true (PyVal.num 20)
        { quantity := some 1, total := some (-120) } = 0 ∧
      claimInclusiveUnitPrice { quantity := some 1, total := some (-120) } 20 = -120 := by
  constructor <;> norm_num [resilientPriceUnit, claimInclusiveUnitPrice, pyFloatOrZero_num]

/-- C3 (amended: the preference tests are for strictly positive values, not
merely non-zero ones): for every line detail with a resolved inclusive tax,
the computed unit price equals the gross total divided by quantity when the
total is positive; otherwise `(net_total + vat_amount) / quantity` when the
net total is positive; otherwise `unit_price * (1 + rate / 100)` divided by
quantity.  In particular `{quantity: 2, total: 120, vat_amount: 20}` with a
resolved inclusive 20% tax yields unit price 60. -/
theorem C3_inclusive_valuation :
    (∀ (t : AccountTax) (r : Rat) (a : NodeAttrs),
        resilientPriceUnit (some t) true (PyVal.num r) a = specInclusiveUnitPrice a r) ∧
      resilientPriceUnit (some tax20pct) true (PyVal.num 20)
        { quantity := some 2, total := some 120, vat_amount := some 20 } = 60 := by
  constructor
  · intro t r a
    simp only [resilientPriceUnit, specInclusiveUnitPrice, pyFloatOrZero_num]
    by_cases h1 : a.total.getD 0 > 0 <;> by_cases h2 : a.net_total.getD 0 > 0 <;>
      simp [h1, h2]
  · norm_num [resilientPriceUnit, pyFloatOrZero_num]

/-- C7 counterexample: on `{quantity: 2, unit_price: 50}` with no resolved
tax the source keeps the chosen value unchanged because it equals the raw
`unit_price` field, yielding 50; the claim rule (divide unless the chosen
value equals its own divided-by-quantity form) would divide and yield 25. -/
theorem C7_counterexample :
    resilientPriceUnit Option.none false PyVal.none
        { quantity := some 2, unit_price := some 50 } = 50 ∧
      claimNoTaxUnitPrice { quantity := some 2, unit_price := some 50 } = 25 := by
  constructor <;> norm_num [resilientPriceUnit, claimNoTaxUnitPrice]

/-- C7 (amended: the preference tests are for strictly positive values, and
the value is used unchanged exactly when it equals the raw `unit_price`
field, absent read as 0 — not when it equals its divided-by-quantity form):
for every line detail with no resolved tax, the chosen value is `unit_price`
if positive, else `net_total` if positive, else `total`; it is used unchanged
when it equals the `unit_price` field and divided by quantity otherwise.  In
particular `{quantity: 3, total: 300}` with no resolved tax yields unit price
100. -/
theorem C7_no_tax_valuation :
    (∀ (v : PyVal) (a : NodeAttrs),
        resilientPriceUnit Option.none false v a = specNoTaxUnitPrice a) ∧
      resilientPriceUnit Option.none false PyVal.none
        { quantity := some 3, total := some 300 } = 100 := by
  constructor
  · intro v a
    simp only [resilientPriceUnit, specNoTaxUnitPrice]
  · norm_num [resilientPriceUnit]

/-- C10: a rate value that is neither null nor parseable as a number makes
`_find_odoo_tax` return the no-tax result without touching the store, the
same outcome as a null or zero rate. -/
theorem C10_unparseable_rate :
    ∀ (env : TaxEnv) (use : String) (s : String),
      parseDec? s = Option.none →
      findOdooTax env (PyVal.str s) use = (Option.none, false, env) ∧
      findOdooTax env (PyVal.str s) use = findOdooTax env PyVal.none use ∧
      findOdooTax env (PyVal.str s) use = findOdooTax env (PyVal.num 0) use := by
  intro env use s h
  refine ⟨?_, ?_, ?_⟩ <;> simp [findOdooTax, pyFloat?, h]

/-- C10 witness at the non-numeric string `"abc"` against a nonempty store. -/
theorem C10_witness :
    parseDec? "abc" = Option.none ∧
      (findOdooTax envYirmi (PyVal.str "abc") "purchase" = (Option.none, false, envYirmi) ∧
        findOdooTax envYirmi (PyVal.str "abc") "purchase" =
          findOdooTax envYirmi PyVal.none "purchase" ∧
        findOdooTax envYirmi (PyVal.str "abc") "purchase" =
          findOdooTax envYirmi (PyVal.num 0) "purchase") :=
  ⟨by decide, C10_unparseable_rate envYirmi "purchase" "abc" (by decide)⟩

/-- C4 counterexample: with an inclusive active sale tax stored as the whole
percentage 20 and another stored as one five-hundredth, `resolve(20, sale)`
returns the former while `resolve(0.20, sale)` returns the latter — the two
calls do not return the same match, because the resolver searches for
`rate` and `rate / 100`, never `rate * 100`. -/
theorem C4_counterexample :
    (findOdooTax envDual (PyVal.num 20) "sale").1 = some tax20pct ∧
      (findOdooTax envDual (PyVal.num (1 / 5)) "sale").1 = some tax0002 ∧
      (findOdooTax envDual (PyVal.num 20) "sale").1 ≠
        (findOdooTax envDual (PyVal.num (1 / 5)) "sale").1 := by
  have e1 : (findOdooTax envDual (PyVal.num 20) "sale").1 = some tax20pct := by
    norm_num [findOdooTax, pyFloat?, taxPrio1, filterP, firstByOrder, envDual,
      tax20pct, tax0002]
    rw [if_neg (fun h => PyVal.noConfusion h)]
  have e2 : (findOdooTax envDual (PyVal.num (1 / 5)) "sale").1 = some tax0002 := by
    norm_num [findOdooTax, pyFloat?, taxPrio1, filterP, firstByOrder, envDual,
      tax20pct, tax0002]
    rw [if_neg (fun h => PyVal.noConfusion h)]
  refine ⟨e1, e2, ?_⟩
  rw [e1, e2]
  simp [tax20pct, tax0002]

/-- C4 (amended): the resolver searches for the rate as given and as its
hundredth, so `resolve(r)` and `resolve(r / 100)` agree on a store whose tax
is stored pre-divided (amount `r / 100`); they need not agree when the tax is
stored as a whole percentage. -/
theorem C4_dual_representation :
    ∀ (r : Rat) (use : String) (t : AccountTax) (gs : List TaxGroup) (nid : Nat),
      r ≠ 0 → t.amount = r / 100 → t.type_tax_use = use →
      t.price_include = true → t.active = true →
      (findOdooTax ⟨[t], gs, nid⟩ (PyVal.num r) use).1 = some t ∧
        (findOdooTax ⟨[t], gs, nid⟩ (PyVal.num (r / 100)) use).1 = some t := by
  intro r use t gs nid hr hamt huse hincl hact
  have hr100 : r / 100 ≠ 0 := by
    simp [div_eq_zero_iff, hr]
  constructor
  · simp [findOdooTax, pyFloat?, hr, taxPrio1, filterP, firstByOrder, hamt, huse,
      hincl, hact]
  · simp [findOdooTax, pyFloat?, hr100, taxPrio1, filterP, firstByOrder, hamt, huse,
      hincl, hact]

/-- C4 witness: rate 20 against a store holding a single inclusive active
sale tax stored as the fraction 0.2. -/
theorem C4_witness :
    (20 : Rat) ≠ 0 ∧ taxFifth.amount = 20 / 100 ∧ taxFifth.type_tax_use = "sale" ∧
      taxFifth.price_include = true ∧ taxFifth.active = true ∧
      ((findOdooTax ⟨[taxFifth], [], 2⟩ (PyVal.num 20) "sale").1 = some taxFifth ∧
        (findOdooTax ⟨[taxFifth], [], 2⟩ (PyVal.num (20 / 100)) "sale").1 = some taxFifth) :=
  ⟨by norm_num, by norm_num [taxFifth], by decide, by decide, by decide,
    C4_dual_representation 20 "sale" taxFifth [] 2 (by norm_num)
      (by norm_num [taxFifth]) (by decide) (by decide) (by decide)⟩

theorem natStrCharsAux_irrel :
    ∀ (f1 : Nat), ∀ (f2 n : Nat), n < f1 → n < f2 →
      natStrCharsAux f1 n = natStrCharsAux f2 n := by
  intro f1
  induction f1 with
  | zero => intro f2 n h1 _; omega
  | succ f ih =>
    intro f2 n h1 h2
    cases f2 with
    | zero => omega
    | succ g =>
      simp only [natStrCharsAux]
      by_cases h10 : n < 10
      · simp [h10]
      · have hdiv : n / 10 < n := Nat.div_lt_self (by omega) (by omega)
        simp only [if_neg h10]
        rw [ih g (n / 10) (by omega) (by omega)]

theorem natStrChars_eq (n : Nat) :
    natStrChars n =
      if n < 10 then [Nat.digitChar (n % 10)]
      else natStrChars (n / 10) ++ [Nat.digitChar (n % 10)] := by
  show natStrCharsAux (n + 1) n = _
  by_cases h10 : n < 10
  · simp [natStrCharsAux, h10]
  · have hdiv : n / 10 < n := Nat.div_lt_self (by omega) (by omega)
    simp only [natStrCharsAux, if_neg h10]
    rw [natStrCharsAux_irrel n (n / 10 + 1) (n / 10) (by omega) (by omega)]
    rfl

theorem digitChar_inj_lt :
    ∀ (a b : Nat), a < 10 → b < 10 → Nat.digitChar a = Nat.digitChar b → a = b := by
  have h : ∀ a b : Fin 10, Nat.digitChar a.val = Nat.digitChar b.val → a = b := by decide
  intro a b ha hb heq
  have := h ⟨a, ha⟩ ⟨b, hb⟩ heq
  exact congrArg Fin.val this

theorem natStrChars_inj : ∀ (a b : Nat), natStrChars a = natStrChars b → a = b := by
  intro a
  induction a using Nat.strong_induction_on with
  | _ a ih =>
    intro b h
    rw [natStrChars_eq a, natStrChars_eq b] at h
    by_cases ha : a < 10 <;> by_cases hb : b < 10
    · simp only [if_pos ha, if_pos hb, List.cons.injEq] at h
      have := digitChar_inj_lt (a % 10) (b % 10) (Nat.mod_lt _ (by omega))
        (Nat.mod_lt _ (by omega)) h.1
      omega
    · simp only [if_pos ha, if_neg hb] at h
      have hlen := congrArg List.length h
      simp only [List.length_cons, List.length_append, List.length_nil] at hlen
      exact absurd (List.length_eq_zero.mp (by omega)) (natStrChars_ne_nil (b / 10))
    · simp only [if_neg ha, if_pos hb] at h
      have hlen := congrArg List.length h
      simp only [List.length_cons, List.length_append, List.length_nil] at hlen
      exact absurd (List.length_eq_zero.mp (by omega)) (natStrChars_ne_nil (a / 10))
    · simp only [if_neg ha, if_neg hb] at h
      obtain ⟨h1, h2⟩ := List.append_inj' h (by simp)
      have hdiv : a / 10 < a := Nat.div_lt_self (by omega) (by omega)
      have e1 : a / 10 = b / 10 := ih (a / 10) hdiv (b / 10) h1
      have e2 : a % 10 = b % 10 := by
        have := List.cons.injEq (Nat.digitChar (a % 10)) [] (Nat.digitChar (b % 10)) []
        rw [this] at h2
        exact digitChar_inj_lt _ _ (Nat.mod_lt _ (by omega)) (Nat.mod_lt _ (by omega)) h2.1
      omega

theorem natStr_inj : ∀ (a b : Nat), natStr a = natStr b → a = b := by
  intro a b h
  exact natStrChars_inj a b (congrArg String.data h)

theorem natStr_ne_empty (n : Nat) : natStr n ≠ "" := by
  intro h
  exact natStrChars_ne_nil n (congrArg String.data h)

theorem strAppend_cancel_left {a b c : String} (h : a ++ b = a ++ c) : b = c := by
  have hd := congrArg String.data h
  simp only [String.data_append] at hd
  exact String.ext (List.append_cancel_left hd)

theorem journalCand_inj_pos (base : String) :
    ∀ (j k : Nat), journalCand base (j + 1) = journalCand base (k + 1) → j = k := by
  intro j k h
  simp only [journalCand, Nat.succ_ne_zero, if_neg] at h
  have := natStr_inj (j + 1) (k + 1) (strAppend_cancel_left h)
  omega

theorem pigeonFree (f : Nat → String) (M : Nat) (existing : List String)
    (hnd : ((List.range M).map f).Nodup) (hlen : existing.length < M) :
    ∃ j, j < M ∧ f j ∉ existing := by
  by_contra hc
  push_neg at hc
  have hsub : ((List.range M).map f).toFinset ⊆ existing.toFinset := by
    intro x hx
    rw [List.mem_toFinset] at hx ⊢
    obtain ⟨j, hj, rfl⟩ := List.mem_map.mp hx
    exact hc j (List.mem_range.mp hj)
  have h1 : ((List.range M).map f).toFinset.card = M := by
    rw [List.toFinset_card_of_nodup hnd]
    simp
  have h2 : existing.toFinset.card ≤ existing.length := List.toFinset_card_le existing
  have := Finset.card_le_card hsub
  omega

theorem genCodeAux_succeeds :
    ∀ (fuel k : Nat) (existing : List String) (base : String),
      (∃ j, k ≤ j ∧ j < k + fuel ∧ journalCand base j ∉ existing) →
      ∃ c, genCodeAux existing base fuel k = some c ∧ c ∉ existing := by
  intro fuel
  induction fuel with
  | zero => intro k existing base ⟨j, h1, h2, _⟩; omega
  | succ f ih =>
    intro k existing base ⟨j, h1, h2, h3⟩
    by_cases hk : journalCand base k ∈ existing
    · have hjk : j ≠ k := fun he => h3 (he ▸ hk)
      simp only [genCodeAux, if_pos hk]
      exact ih (k + 1) existing base ⟨j, by omega, by omega, h3⟩
    · exact ⟨journalCand base k, by simp [genCodeAux, hk], hk⟩

theorem testBankCand_inj : ∀ (j k : Nat), journalCand "TEST" j = journalCand "TEST" k → j = k := by
  have hT : takeStr 4 "TEST" = "TEST" := by decide
  have habs : ∀ m : Nat, "TEST" ≠ journalCand "TEST" (m + 1) := by
    intro m h
    simp only [journalCand, Nat.succ_ne_zero, if_neg, hT] at h
    have h0 : "TEST" ++ "" = "TEST" ++ natStr (m + 1) := by
      rw [String.append_empty]; exact h
    exact natStr_ne_empty (m + 1) (strAppend_cancel_left h0).symm
  intro j k h
  match j, k with
  | 0, 0 => rfl
  | 0, k + 1 =>
    exact absurd (by simpa [journalCand] using h) (habs k)
  | j + 1, 0 =>
    exact absurd (by simpa [journalCand] using h.symm) (habs j)
  | j + 1, k + 1 =>
    exact congrArg (· + 1) (journalCand_inj_pos "TEST" j k h)

/-- C8 counterexample: for the name `Test1` the 5-character prefix `TEST1`
coincides with the first suffixed candidate `TEST1`, so against the
single-element code set `[TEST1]` (N = 1) the loop needs 3 attempts, not
N + 1 = 2; with 2 attempts no free code has been found yet. -/
theorem C8_counterexample :
    genJournalCode "Test1" ["TEST1"] (List.length ["TEST1"] + 1) = Option.none ∧
      genJournalCode "Test1" ["TEST1"] (List.length ["TEST1"] + 2) = some "TEST2" := by
  constructor <;> decide

/-- C8 (amended): for every non-empty account name and every existing-code
set of size N the generation loop terminates within N + 2 attempts and
returns a code absent from the set; N + 1 attempts suffice for names such as
`Test Bank` whose 5-character prefix cannot collide with a suffixed
candidate. -/
theorem C8_code_generation :
    (∀ (name : String) (existing : List String), name ≠ "" →
        ∃ c, genJournalCode name existing (existing.length + 2) = some c ∧ c ∉ existing) ∧
      ∀ (existing : List String),
        ∃ c, genJournalCode "Test Bank" existing (existing.length + 1) = some c ∧
          c ∉ existing := by
  constructor
  · intro name existing _
    have hinj : Function.Injective (fun j => journalCand (journalCodeBase name) (j + 1)) :=
      fun j k h => journalCand_inj_pos (journalCodeBase name) j k h
    have hnd : ((List.range (existing.length + 1)).map
        (fun j => journalCand (journalCodeBase name) (j + 1))).Nodup :=
      (List.nodup_range _).map hinj
    obtain ⟨j, hj, hfree⟩ :=
      pigeonFree (fun j => journalCand (journalCodeBase name) (j + 1))
        (existing.length + 1) existing hnd (by omega)
    exact genCodeAux_succeeds (existing.length + 2) 0 existing (journalCodeBase name)
      ⟨j + 1, by omega, by omega, hfree⟩
  · intro existing
    have hbase : journalCodeBase "Test Bank" = "TEST" := by decide
    have hinj : Function.Injective (fun j => journalCand "TEST" j) :=
      fun j k h => testBankCand_inj j k h
    have hnd : ((List.range (existing.length + 1)).map
        (fun j => journalCand "TEST" j)).Nodup :=
      (List.nodup_range _).map hinj
    obtain ⟨j, hj, hfree⟩ :=
      pigeonFree (fun j => journalCand "TEST" j) (existing.length + 1) existing hnd (by omega)
    have := genCodeAux_succeeds (existing.length + 1) 0 existing "TEST"
      ⟨j, by omega, by omega, hfree⟩
    simpa [genJournalCode, hbase] using this

/-- C8 witness: the name `Test Bank` against the code set `[TEST]`. -/
theorem C8_witness :
    ("Test Bank" : String) ≠ "" ∧
      ∃ c, genJournalCode "Test Bank" ["TEST"] (List.length ["TEST"] + 2) = some c ∧
        c ∉ ["TEST"] :=
  ⟨by decide, C8_code_generation.1 "Test Bank" ["TEST"] (by decide)⟩

/-- C5 counterexample: with a five-page dataset whose second page request
fails, the settings-model fetch raises (failing the whole run instead of
returning the collected batches), and the connector-model fetch returns a
bare one-batch list carrying no truncated flag — its result is identical to
that of a complete one-page fetch, so the caller cannot detect truncation. -/
theorem C5_counterexample :
    fetchSettings "sales_invoices" (failPage2Oracle [1] [] "boom") =
        Except.error "Error fetching sales_invoices: boom" ∧
      fetchConnector (failPage2Oracle [1] [] "boom") = [⟨[1], []⟩] ∧
      fetchConnector (failPage2Oracle [1] [] "boom") =
        fetchConnector (onePageOracle [1] []) := by
  exact ⟨rfl, by decide, by decide⟩

/-- C5 (amended): on a transport error on page 2 of 5, the connector-model
fetch terminates and returns the single batch collected so far, but exposes
no truncated flag — the result coincides with that of a complete one-page
fetch; the settings-model fetch instead aborts the whole run with an
error. -/
theorem C5_partial_fetch :
    ∀ {α : Type} (d i : List α) (msg ep : String), d ≠ [] →
      fetchConnector (failPage2Oracle d i msg) = [⟨d, i⟩] ∧
        fetchSettings ep (failPage2Oracle d i msg) =
          Except.error ("Error fetching " ++ ep ++ ": " ++ msg) ∧
        fetchConnector (failPage2Oracle d i msg) = fetchConnector (onePageOracle d i) := by
  intro α d i msg ep hd
  have hem : d.isEmpty = false := by
    cases d with
    | nil => exact absurd rfl hd
    | cons a t => rfl
  refine ⟨?_, ?_, ?_⟩ <;>
    simp [fetchConnector, fetchConnectorAux, fetchSettings, fetchSettingsAux,
      failPage2Oracle, onePageOracle, hem]

/-- C6 counterexample: against an always-nonempty dataset reporting 50 pages
the connector fetch returns 21 batches, not at most 20 — the safety-cap check
`page > 20` runs after the page is appended. -/
theorem C6_counterexample :
    (fetchConnector allPagesOracle).length = 21 := by
  decide

theorem batchAt?_ok_nonempty {α : Type} {oracle : FetchRequest → Except String (PageResp α)}
    {p : Nat} {resp : PageResp α} (ho : oracle ⟨25, p⟩ = Except.ok resp)
    (hemp : resp.data.isEmpty = false) :
    batchAt? oracle p = some ⟨resp.data, resp.included⟩ := by
  simp [batchAt?, ho, hemp]

theorem fetchConnectorAux_spec {α : Type} (oracle : FetchRequest → Except String (PageResp α)) :
    ∀ (fuel page : Nat), 1 ≤ page → page ≤ 21 → 22 ≤ page + fuel →
      ∃ n, page + n ≤ 22 ∧
        fetchConnectorAux oracle fuel page = (List.range' page n).filterMap (batchAt? oracle) ∧
        (∀ p, page ≤ p → p + 1 < page + n → p ≤ 20 ∧ p < pageCountAt oracle p) ∧
        (∀ p, page ≤ p → p < page + n → (batchAt? oracle p).isSome) ∧
        (page + n ≤ 21 →
          (0 < n ∧ pageCountAt oracle (page + n - 1) ≤ page + n - 1) ∨
            batchAt? oracle (page + n) = Option.none) := by
  intro fuel
  induction fuel with
  | zero => intro page h1 h21 h22; omega
  | succ f ih =>
    intro page h1 h21 h22
    cases ho : oracle ⟨25, page⟩ with
    | error e =>
      refine ⟨0, by omega, ?_, ?_, ?_, ?_⟩
      · simp [fetchConnectorAux, ho]
      · intro p hp hp2; omega
      · intro p hp hp2; omega
      · intro _
        right
        simp [batchAt?, ho]
    | ok resp =>
      by_cases hemp : resp.data.isEmpty
      · refine ⟨0, by omega, ?_, ?_, ?_, ?_⟩
        · simp [fetchConnectorAux, ho, hemp]
        · intro p hp hp2; omega
        · intro p hp hp2; omega
        · intro _
          right
          simp [batchAt?, ho, hemp]
      · replace hemp : resp.data.isEmpty = false := by
          simpa using hemp
        by_cases hstop : resp.page_count ≤ page ∨ 20 < page
        · refine ⟨1, by omega, ?_, ?_, ?_, ?_⟩
          · simp only [fetchConnectorAux, ho, hemp, Bool.false_eq_true, if_false,
              if_pos hstop]
            rw [List.range'_one]
            simp [batchAt?_ok_nonempty ho hemp]
          · intro p hp hp2; omega
          · intro p hp hp2
            have : p = page := by omega
            subst this
            simp [batchAt?_ok_nonempty ho hemp]
          · intro hle
            left
            refine ⟨by omega, ?_⟩
            have hpc : resp.page_count ≤ page := by
              rcases hstop with h | h
              · exact h
              · omega
            have : page + 1 - 1 = page := by omega
            rw [this]
            simpa [pageCountAt, ho] using hpc
        · push_neg at hstop
          obtain ⟨hpc, hle20⟩ := hstop
          obtain ⟨n, hn22, heq, hcont, hsome, hstop⟩ :=
            ih (page + 1) (by omega) (by omega) (by omega)
          refine ⟨n + 1, by omega, ?_, ?_, ?_, ?_⟩
          · simp only [fetchConnectorAux, ho, hemp, Bool.false_eq_true, if_false,
              if_neg (by omega : ¬(resp.page_count ≤ page ∨ 20 < page))]
            rw [List.range'_succ, List.filterMap_cons,
              batchAt?_ok_nonempty ho hemp, heq]
          · intro p hp hp2
            by_cases hpp : p = page
            · subst hpp
              exact ⟨by omega, by simpa [pageCountAt, ho] using hpc⟩
            · exact hcont p (by omega) (by omega)
          · intro p hp hp2
            by_cases hpp : p = page
            · subst hpp
              simp [batchAt?_ok_nonempty ho hemp]
            · exact hsome p (by omega) (by omega)
          · intro hle
            have h2 : page + 1 + n ≤ 21 := by omega
            rcases hstop h2 with ⟨hn0, hc⟩ | hb
            · left
              refine ⟨by omega, ?_⟩
              have : page + (n + 1) - 1 = page + 1 + n - 1 := by omega
              rw [this]
              exact hc
            · right
              have : page + (n + 1) = page + 1 + n := by omega
              rw [this]
              exact hb

theorem fetchSettingsAux_ok {α : Type} (ep : String)
    (oracle : FetchRequest → Except String (PageResp α)) :
    ∀ (fuel page : Nat) (l : List (Batch α)),
      fetchSettingsAux ep oracle fuel page = Except.ok l →
      fetchConnectorAux oracle fuel page = l := by
  intro fuel
  induction fuel with
  | zero =>
    intro page l h
    simp only [fetchSettingsAux, Except.ok.injEq] at h
    simp [fetchConnectorAux, ← h]
  | succ f ih =>
    intro page l h
    cases ho : oracle ⟨25, page⟩ with
    | error e =>
      simp [fetchSettingsAux, ho] at h
    | ok resp =>
      by_cases hemp : resp.data.isEmpty
      · simp only [fetchSettingsAux, ho, hemp, if_true, Except.ok.injEq] at h
        simp [fetchConnectorAux, ho, hemp, ← h]
      · replace hemp : resp.data.isEmpty = false := by simpa using hemp
        by_cases hstop : resp.page_count ≤ page ∨ 20 < page
        · simp only [fetchSettingsAux, ho, hemp, Bool.false_eq_true, if_false,
            if_pos hstop, Except.ok.injEq] at h
          simp only [fetchConnectorAux, ho, hemp, Bool.false_eq_true, if_false,
            if_pos hstop]
          exact h
        · simp only [fetchSettingsAux, ho, hemp, Bool.false_eq_true, if_false,
            if_neg hstop] at h
          cases hr : fetchSettingsAux ep oracle f (page + 1) with
          | error e => rw [hr] at h; simp at h
          | ok rest =>
            rw [hr] at h
            simp only [Except.ok.injEq] at h
            simp only [fetchConnectorAux, ho, hemp, Bool.false_eq_true, if_false,
              if_neg hstop]
            rw [ih (page + 1) rest hr, ← h]

/-- C6 (amended: the safety cap yields at most 21 batches, because the check
`page > 20` runs after the current page has been appended): paging requests
pages of size 25 in increasing page-number order starting at 1; every
returned batch comes from a successful nonempty page; before every
non-final fetched page the server-reported page count had not been reached
and the cap was not exceeded; the run stops at the first of an
empty-or-failed page, the reported page count, or the cap; and whenever the
settings-model fetch succeeds it returns exactly the connector-model batch
sequence. -/
theorem C6_paging :
    ∀ {α : Type} (oracle : FetchRequest → Except String (PageResp α)),
      ∃ n, n ≤ 21 ∧
        fetchConnector oracle = (List.range' 1 n).filterMap (batchAt? oracle) ∧
        (∀ p, 1 ≤ p → p < n → p ≤ 20 ∧ p < pageCountAt oracle p) ∧
        (∀ p, 1 ≤ p → p ≤ n → (batchAt? oracle p).isSome) ∧
        (n ≤ 20 → (0 < n ∧ pageCountAt oracle n ≤ n) ∨ batchAt? oracle (n + 1) = Option.none) ∧
        (∀ (ep : String) (l : List (Batch α)),
          fetchSettings ep oracle = Except.ok l → l = fetchConnector oracle) := by
  intro α oracle
  obtain ⟨n, hn22, heq, hcont, hsome, hstop⟩ :=
    fetchConnectorAux_spec oracle 21 1 (by omega) (by omega) (by omega)
  refine ⟨n, by omega, heq, ?_, ?_, ?_, ?_⟩
  · intro p hp hpn
    exact hcont p hp (by omega)
  · intro p hp hpn
    exact hsome p hp (by omega)
  · intro hn20
    have h21 : 1 + n ≤ 21 := by omega
    rcases hstop h21 with ⟨hn0, hc⟩ | hb
    · left
      refine ⟨hn0, ?_⟩
      have : 1 + n - 1 = n := by omega
      rwa [this] at hc
    · right
      have : 1 + n = n + 1 := by omega
      rwa [this] at hb
  · intro ep l h
    exact (fetchSettingsAux_ok ep oracle 21 1 l h).symm

/-- C6 witness: the paging characterization at the always-nonempty 50-page
oracle. -/
theorem C6_witness :
    ∃ n, n ≤ 21 ∧
      fetchConnector allPagesOracle =
        (List.range' 1 n).filterMap (batchAt? allPagesOracle) ∧
      (∀ p, 1 ≤ p → p < n → p ≤ 20 ∧ p < pageCountAt allPagesOracle p) ∧
      (∀ p, 1 ≤ p → p ≤ n → (batchAt? allPagesOracle p).isSome) ∧
      (n ≤ 20 →
        (0 < n ∧ pageCountAt allPagesOracle n ≤ n) ∨
          batchAt? allPagesOracle (n + 1) = Option.none) ∧
      (∀ (ep : String) (l : List (Batch Nat)),
        fetchSettings ep allPagesOracle = Except.ok l → l = fetchConnector allPagesOracle) :=
  C6_paging allPagesOracle

theorem settingsPayLoop_append (o : String → String → PayResp) (t : String → TransResp)
    (j : List Journal) :
    ∀ (xs : List PayMove) (acc : PayOutcome) (ys : List PayMove),
      (settingsPayLoop o t j acc xs).rateLimited = false →
      settingsPayLoop o t j acc (xs ++ ys) =
        settingsPayLoop o t j (settingsPayLoop o t j acc xs) ys := by
  intro xs
  induction xs with
  | nil => intro acc ys _; rfl
  | cons m tl ih =>
    intro acc ys h
    simp only [settingsPayLoop, List.cons_append] at h ⊢
    by_cases h429 : (o (parasutEndpoint m.ref) m.parasut_id).status = 429
    · simp only [if_pos h429] at h
      simp at h
    · simp only [if_neg h429] at h ⊢
      by_cases h200 : (o (parasutEndpoint m.ref) m.parasut_id).status = 200
      · simp only [if_neg (not_not_intro h200)] at h ⊢
        by_cases hpr : (o (parasutEndpoint m.ref) m.parasut_id).paymentsRel.isEmpty
        · simp only [if_pos hpr] at h ⊢
          exact ih _ ys h
        · simp only [if_neg hpr] at h ⊢
          exact ih _ ys h
      · simp only [if_pos h200] at h ⊢
        exact ih _ ys h

theorem sleepPrecedes_append_block (evs : List PayEvent) (e p : String)
    (h : sleepPrecedes evs) :
    sleepPrecedes (evs ++ [PayEvent.sleep, PayEvent.detailRequest e p]) := by
  intro i e2 p2 hi
  by_cases hilt : i < evs.length
  · rw [List.getElem?_append_left hilt] at hi
    obtain ⟨k, rfl, hk⟩ := h i e2 p2 hi
    exact ⟨k, rfl, by rw [List.getElem?_append_left (by omega)]; exact hk⟩
  · rw [List.getElem?_append_right (by omega)] at hi
    rcases hd : i - evs.length with _ | _ | n
    · rw [hd] at hi
      simp at hi
    · refine ⟨evs.length, by omega, ?_⟩
      rw [List.getElem?_append_right (by omega)]
      simp
    · rw [hd] at hi
      simp at hi

theorem settingsPayLoop_sleeps (o : String → String → PayResp) (t : String → TransResp)
    (j : List Journal) :
    ∀ (ms : List PayMove) (acc : PayOutcome),
      sleepPrecedes acc.events →
      sleepPrecedes (settingsPayLoop o t j acc ms).events := by
  intro ms
  induction ms with
  | nil => intro acc h; exact h
  | cons m tl ih =>
    intro acc h
    have hblock : sleepPrecedes (acc.events ++
        [PayEvent.sleep, PayEvent.detailRequest (parasutEndpoint m.ref) m.parasut_id]) :=
      sleepPrecedes_append_block acc.events _ _ h
    simp only [settingsPayLoop]
    by_cases h429 : (o (parasutEndpoint m.ref) m.parasut_id).status = 429
    · rw [if_pos h429]
      exact hblock
    · rw [if_neg h429]
      by_cases h200 : (o (parasutEndpoint m.ref) m.parasut_id).status = 200
      · rw [if_neg (not_not_intro h200)]
        by_cases hpr : (o (parasutEndpoint m.ref) m.parasut_id).paymentsRel.isEmpty
        · rw [if_pos hpr]
          exact ih _ hblock
        · rw [if_neg hpr]
          exact ih _ hblock
      · rw [if_pos h200]
        exact ih _ hblock

/-- C9 counterexample: the connector-model payment loop, given a 429 response
for its first payable, continues to the second payable (its trace holds a
detail request for both) and sleeps before neither call — it has no
rate-limit abort and no delay. -/
theorem C9_counterexample :
    action_sync_payments_connector pay429Oracle [] [payMoveA, payMoveB] =
      ⟨0, false, [],
        [PayEvent.detailRequest "purchase_bills" "A",
         PayEvent.detailRequest "purchase_bills" "B"]⟩ := by
  decide

/-- C9 (amended: this holds for the settings-model payment loop; the
connector-model loop instead skips the 429 payable and continues, with no
delay): when the detail call for a payable answers 429 and every earlier
payable completed without a 429, the loop stops there — the remaining
payables are never fetched — and reports exactly the number of records
already processed; and a sleep immediately precedes every detail call. -/
theorem C9_rate_limit :
    (∀ (o : String → String → PayResp) (t : String → TransResp) (j : List Journal)
        (pre : List PayMove) (m : PayMove) (post : List PayMove) (out : PayOutcome),
        action_sync_payments_settings o t j pre = out →
        out.rateLimited = false →
        (o (parasutEndpoint m.ref) m.parasut_id).status = 429 →
        action_sync_payments_settings o t j (pre ++ m :: post) =
          { processed := out.processed, rateLimited := true,
            registrations := out.registrations,
            events := out.events ++
              [PayEvent.sleep, PayEvent.detailRequest (parasutEndpoint m.ref) m.parasut_id] }) ∧
      ∀ (o : String → String → PayResp) (t : String → TransResp) (j : List Journal)
        (ms : List PayMove),
        sleepPrecedes (action_sync_payments_settings o t j ms).events := by
  constructor
  · intro o t j pre m post out hpre hrl h429
    unfold action_sync_payments_settings at hpre ⊢
    rw [settingsPayLoop_append o t j pre ⟨0, false, [], []⟩ (m :: post)
      (by rw [hpre]; exact hrl), hpre]
    simp only [settingsPayLoop, if_pos h429]
  · intro o t j ms
    refine settingsPayLoop_sleeps o t j ms ⟨0, false, [], []⟩ ?_
    intro i e p hi
    simp at hi

/-- C9 witness: one completed payable followed by a payable whose detail call
answers 429. -/
theorem C9_witness :
    action_sync_payments_settings pay429Oracle noTransOracle [] [payMoveB] = payOutB ∧
      payOutB.rateLimited = false ∧
      (pay429Oracle (parasutEndpoint payMoveA.ref) payMoveA.parasut_id).status = 429 ∧
      action_sync_payments_settings pay429Oracle noTransOracle []
          ([payMoveB] ++ payMoveA :: []) =
        { processed := payOutB.processed, rateLimited := true,
          registrations := payOutB.registrations,
          events := payOutB.events ++
            [PayEvent.sleep,
             PayEvent.detailRequest (parasutEndpoint payMoveA.ref) payMoveA.parasut_id] } :=
  ⟨by decide, by decide, by decide,
    C9_rate_limit.1 pay429Oracle noTransOracle [] [payMoveB] payMoveA [] payOutB
      (by decide) (by decide) (by decide)⟩

theorem exists_mem_set_of_exists {α : Type} {l : List α} {i : Nat} {v : α}
    {P Q : α → Prop}
    (hex : ∃ m ∈ l, P m)
    (hrepl : ∀ h : i < l.length, Q (l.get ⟨i, h⟩))
    (himp : ∀ m, P m → Q m → P v) :
    ∃ m ∈ l.set i v, P m := by
  obtain ⟨m, hm, hPm⟩ := hex
  obtain ⟨⟨j, hj⟩, rfl⟩ := List.mem_iff_get.mp hm
  by_cases hij : j = i
  · subst hij
    refine ⟨v, ?_, himp _ hPm (hrepl hj)⟩
    refine List.mem_iff_get.mpr ⟨⟨j, by simpa using hj⟩, ?_⟩
    simp [List.getElem_set_self]
  · refine ⟨l.get ⟨j, hj⟩, ?_, hPm⟩
    refine List.mem_iff_get.mpr ⟨⟨j, by simpa using hj⟩, ?_⟩
    simp [List.getElem_set_ne (fun h => hij (h.symm)) ]

theorem resolveSalesPartner_isSome {partners : List Partner} {included : List Node}
    {c : String} {node : Node}
    (hn : findInIncluded included "contacts" c = some node) :
    (resolveSalesPartner partners included c).1.isSome := by
  unfold resolveSalesPartner
  cases h1 : searchIdx (fun p : Partner => p.parasut_id = some c) partners with
  | some i => simp [h1]
  | none =>
    by_cases ht : strTruthy node.attrs.name
    · cases h2 : searchIdx (fun p : Partner => p.name = node.attrs.name) partners with
      | some i => simp [hn, ht, h2]
      | none => simp [hn, ht, h2]
    · simp [hn, ht]

theorem resolvePurchasePartner_isSome {partners : List Partner} {included : List Node}
    {sref : Ref} {node : Node} {nm : String}
    (hn : findInIncluded included "contacts" sref.rid = some node)
    (hnm : node.attrs.name = some nm) :
    (resolvePurchasePartner partners included (some sref)).1.isSome := by
  unfold resolvePurchasePartner
  cases h1 : searchIdx (fun p : Partner => p.parasut_id = some sref.rid) partners with
  | some i => simp [h1]
  | none => simp [h1, hn, hnm]

theorem processSalesItem_creates {included : List Node} {st : SyncState}
    {it : SalesInvoiceItem} {cref : Ref} {node : Node}
    (hc : it.relContact = some cref)
    (hn : findInIncluded included "contacts" cref.rid = some node)
    (hex : searchIdx (fun m : Move => m.parasut_id = it.pid ∧ m.move_type = "out_invoice")
        st.moves = Option.none) :
    ∃ mv : Move, mv.parasut_id = it.pid ∧ mv.move_type = "out_invoice" ∧
      (processSalesItem included st it).moves = st.moves ++ [mv] ∧
      (processSalesItem included st it).movesCreated = st.movesCreated + 1 := by
  unfold processSalesItem
  rw [hc, hex]
  dsimp only
  rcases hres : resolveSalesPartner st.partners included cref.rid with ⟨pi?, partners2, pc⟩
  have hsome : pi?.isSome := by
    have := @resolveSalesPartner_isSome st.partners _ _ _ hn
    rw [hres] at this
    exact this
  cases pi? with
  | none => simp at hsome
  | some pi =>
    dsimp only
    rcases hb : buildSalesLines st.products included it.attrs it.relDetails st.taxEnv with
      ⟨lines0, env2⟩
    dsimp only
    exact ⟨{ move_type := "out_invoice", parasut_id := it.pid, partner_id := pi,
             parasut_total_visual := it.attrs.total.getD 0, ref := "SLS-" ++ it.pid,
             invoice_line_ids :=
               if lines0.isEmpty then
                 [{ name := it.attrs.description.getD "Sale", quantity := 1,
                    price_unit := it.attrs.net_total.getD 0 }]
               else lines0,
             state := "posted" }, rfl, rfl, rfl, rfl⟩

theorem processPurchaseItem_creates {included : List Node} {st : SyncState}
    {it : PurchaseBillItem} {sref : Ref} {node : Node} {nm : String}
    (hs : it.relSupplier = some sref)
    (hn : findInIncluded included "contacts" sref.rid = some node)
    (hnm : node.attrs.name = some nm)
    (hex : searchIdx (fun m : Move => m.parasut_id = it.pid ∧ m.move_type = "in_invoice")
        st.moves = Option.none) :
    ∃ mv : Move, mv.parasut_id = it.pid ∧ mv.move_type = "in_invoice" ∧
      (processPurchaseItem included st it).moves = st.moves ++ [mv] ∧
      (processPurchaseItem included st it).movesCreated = st.movesCreated + 1 := by
  unfold processPurchaseItem
  rw [hs, hex]
  dsimp only
  rcases hres : resolvePurchasePartner st.partners included (some sref) with ⟨pi?, partners2, pc⟩
  have hsome : pi?.isSome := by
    have := @resolvePurchasePartner_isSome st.partners _ _ _ _ hn hnm
    rw [hres] at this
    exact this
  cases pi? with
  | none => simp at hsome
  | some pi =>
    dsimp only
    rcases hb : buildPurchaseLines st.products included it.attrs it.relDetails st.taxEnv with
      ⟨lines0, env2⟩
    dsimp only
    exact ⟨{ move_type := "in_invoice", parasut_id := it.pid, partner_id := pi,
             parasut_total_visual := it.attrs.total.getD 0, ref := "PRS-" ++ it.pid,
             invoice_line_ids :=
               if lines0.isEmpty then
                 [{ name := it.attrs.description.getD "Bill", quantity := 1,
                    price_unit := it.attrs.net_total.getD 0 }]
               else lines0,
             state := "posted" }, rfl, rfl, rfl, rfl⟩

/-- C2: the ledger-entry dedup search keys on the external id AND the move
kind, so a sales invoice and a purchase bill sharing one external id are both
created, as two distinct local entries. -/
theorem C2_dedup_by_kind :
    ∀ (st : SyncState) (sIt : SalesInvoiceItem) (sInc : List Node)
      (pIt : PurchaseBillItem) (pInc : List Node) (cref sref : Ref)
      (cnode snode : Node) (nm : String),
      pIt.pid = sIt.pid →
      (∀ m ∈ st.moves, ¬(m.parasut_id = sIt.pid ∧ m.move_type = "out_invoice")) →
      (∀ m ∈ st.moves, ¬(m.parasut_id = pIt.pid ∧ m.move_type = "in_invoice")) →
      sIt.relContact = some cref →
      findInIncluded sInc "contacts" cref.rid = some cnode →
      pIt.relSupplier = some sref →
      findInIncluded pInc "contacts" sref.rid = some snode →
      snode.attrs.name = some nm →
      (action_sync_purchase_bills [⟨[pIt], pInc⟩]
            (action_sync_sales_invoices [⟨[sIt], sInc⟩] st)).moves.length =
          st.moves.length + 2 ∧
        (∃ m ∈ (action_sync_purchase_bills [⟨[pIt], pInc⟩]
            (action_sync_sales_invoices [⟨[sIt], sInc⟩] st)).moves,
          m.parasut_id = sIt.pid ∧ m.move_type = "out_invoice") ∧
        (∃ m ∈ (action_sync_purchase_bills [⟨[pIt], pInc⟩]
            (action_sync_sales_invoices [⟨[sIt], sInc⟩] st)).moves,
          m.parasut_id = pIt.pid ∧ m.move_type = "in_invoice") ∧
        (action_sync_purchase_bills [⟨[pIt], pInc⟩]
            (action_sync_sales_invoices [⟨[sIt], sInc⟩] st)).movesCreated =
          st.movesCreated + 2 := by
  intro st sIt sInc pIt pInc cref sref cnode snode nm hpid hNoOut hNoIn hc hcn hs hsn hnm
  have h1 : action_sync_sales_invoices [⟨[sIt], sInc⟩] st = processSalesItem sInc st sIt := rfl
  have hexS : searchIdx
      (fun m : Move => m.parasut_id = sIt.pid ∧ m.move_type = "out_invoice") st.moves =
      Option.none :=
    (searchIdx_eq_none _).mpr hNoOut
  obtain ⟨mvS, hS1, hS2, hS3, hS4⟩ := processSalesItem_creates hc hcn hexS
  have h2 : action_sync_purchase_bills [⟨[pIt], pInc⟩] (processSalesItem sInc st sIt) =
      processPurchaseItem pInc (processSalesItem sInc st sIt) pIt := rfl
  have hexP : searchIdx
      (fun m : Move => m.parasut_id = pIt.pid ∧ m.move_type = "in_invoice")
      (processSalesItem sInc st sIt).moves = Option.none := by
    refine (searchIdx_eq_none _).mpr ?_
    rw [hS3]
    intro m hm
    rcases List.mem_append.mp hm with hold | hnew
    · exact hNoIn m hold
    · rw [List.mem_singleton] at hnew
      subst hnew
      rw [hS2]
      rintro ⟨_, habs⟩
      exact absurd habs (by decide)
  obtain ⟨mvP, hP1, hP2, hP3, hP4⟩ := processPurchaseItem_creates hs hsn hnm hexP
  rw [h1, h2]
  refine ⟨?_, ?_, ?_, ?_⟩
  · rw [hP3, hS3]
    simp
  · rw [hP3, hS3]
    exact ⟨mvS, by simp, hS1, hS2⟩
  · rw [hP3]
    exact ⟨mvP, by simp, hP1, hP2⟩
  · rw [hP4, hS4]

/-- C2 witness: a sales invoice and a purchase bill with external id 7
against an empty store. -/
theorem C2_witness :
    let st0 : SyncState := ⟨[], [], [], ⟨[], [], 1⟩, 0, 0, 0⟩
    let sIt : SalesInvoiceItem := ⟨"7", {}, some ⟨"contacts", "C1"⟩, []⟩
    let pIt : PurchaseBillItem := ⟨"7", {}, some ⟨"contacts", "S1"⟩, []⟩
    let sInc : List Node := [⟨"contacts", "C1", { name := some "Alice" }, Option.none⟩]
    let pInc : List Node := [⟨"contacts", "S1", { name := some "Bob" }, Option.none⟩]
    (action_sync_purchase_bills [⟨[pIt], pInc⟩]
          (action_sync_sales_invoices [⟨[sIt], sInc⟩] st0)).moves.length =
        st0.moves.length + 2 ∧
      (∃ m ∈ (action_sync_purchase_bills [⟨[pIt], pInc⟩]
          (action_sync_sales_invoices [⟨[sIt], sInc⟩] st0)).moves,
        m.parasut_id = sIt.pid ∧ m.move_type = "out_invoice") ∧
      (∃ m ∈ (action_sync_purchase_bills [⟨[pIt], pInc⟩]
          (action_sync_sales_invoices [⟨[sIt], sInc⟩] st0)).moves,
        m.parasut_id = pIt.pid ∧ m.move_type = "in_invoice") ∧
      (action_sync_purchase_bills [⟨[pIt], pInc⟩]
          (action_sync_sales_invoices [⟨[sIt], sInc⟩] st0)).movesCreated =
        st0.movesCreated + 2 :=
  C2_dedup_by_kind ⟨[], [], [], ⟨[], [], 1⟩, 0, 0, 0⟩
    ⟨"7", {}, some ⟨"contacts", "C1"⟩, []⟩
    [⟨"contacts", "C1", { name := some "Alice" }, Option.none⟩]
    ⟨"7", {}, some ⟨"contacts", "S1"⟩, []⟩
    [⟨"contacts", "S1", { name := some "Bob" }, Option.none⟩]
    ⟨"contacts", "C1"⟩ ⟨"contacts", "S1"⟩
    ⟨"contacts", "C1", { name := some "Alice" }, Option.none⟩
    ⟨"contacts", "S1", { name := some "Bob" }, Option.none⟩
    "Bob" rfl (by simp) (by simp) rfl (by decide) rfl (by decide) rfl

theorem processSalesItem_preserves_out {included : List Node} {st : SyncState}
    {it : SalesInvoiceItem} (x : String)
    (hex : ∃ m ∈ st.moves, m.parasut_id = x ∧ m.move_type = "out_invoice") :
    ∃ m ∈ (processSalesItem included st it).moves,
      m.parasut_id = x ∧ m.move_type = "out_invoice" := by
  unfold processSalesItem
  cases hrc : it.relContact with
  | none => exact hex
  | some cref =>
    dsimp only
    rcases hres : resolveSalesPartner st.partners included cref.rid with ⟨pi?, p2, pc⟩
    cases pi? with
    | none => exact hex
    | some pi =>
      dsimp only
      rcases hb : buildSalesLines st.products included it.attrs it.relDetails st.taxEnv
        with ⟨lines0, env2⟩
      cases hexi : searchIdx
        (fun m : Move => m.parasut_id = it.pid ∧ m.move_type = "out_invoice") st.moves with
      | none =>
        dsimp only
        obtain ⟨m, hm, hP⟩ := hex
        exact ⟨m, List.mem_append_left _ hm, hP⟩
      | some i =>
        dsimp only
        refine exists_mem_set_of_exists
          (Q := fun m => m.parasut_id = it.pid ∧ m.move_type = "out_invoice") hex ?_ ?_
        · intro h
          obtain ⟨hlt, hp⟩ := searchIdx_some _ _ _ hexi
          exact hp
        · rintro m ⟨hPx, _⟩ ⟨hQ, _⟩
          exact ⟨by rw [← hQ, ← hPx], rfl⟩

theorem salesFold_preserves_out {included : List Node} :
    ∀ (items : List SalesInvoiceItem) (st : SyncState) (x : String),
      (∃ m ∈ st.moves, m.parasut_id = x ∧ m.move_type = "out_invoice") →
      ∃ m ∈ (items.foldl (processSalesItem included) st).moves,
        m.parasut_id = x ∧ m.move_type = "out_invoice" := by
  intro items
  induction items with
  | nil => intro st x hex; exact hex
  | cons a rest ih =>
    intro st x hex
    exact ih _ x (processSalesItem_preserves_out x hex)

theorem processSalesItem_updates {included : List Node} {st : SyncState}
    {it : SalesInvoiceItem} {cref : Ref} {i : Nat}
    (hc : it.relContact = some cref)
    (hn : (findInIncluded included "contacts" cref.rid).isSome)
    (hexi : searchIdx (fun m : Move => m.parasut_id = it.pid ∧ m.move_type = "out_invoice")
        st.moves = some i) :
    ∃ mv : Move, mv.parasut_id = it.pid ∧ mv.move_type = "out_invoice" ∧
      (processSalesItem included st it).moves = st.moves.set i mv ∧
      (processSalesItem included st it).movesCreated = st.movesCreated := by
  obtain ⟨node, hnode⟩ := Option.isSome_iff_exists.mp hn
  unfold processSalesItem
  rw [hc, hexi]
  dsimp only
  rcases hres : resolveSalesPartner st.partners included cref.rid with ⟨pi?, partners2, pc⟩
  have hsome : pi?.isSome := by
    have := @resolveSalesPartner_isSome st.partners _ _ _ hnode
    rw [hres] at this
    exact this
  cases pi? with
  | none => simp at hsome
  | some pi =>
    dsimp only
    rcases hb : buildSalesLines st.products included it.attrs it.relDetails st.taxEnv with
      ⟨lines0, env2⟩
    dsimp only
    exact ⟨{ move_type := "out_invoice", parasut_id := it.pid, partner_id := pi,
             parasut_total_visual := it.attrs.total.getD 0, ref := "SLS-" ++ it.pid,
             invoice_line_ids :=
               if lines0.isEmpty then
                 [{ name := it.attrs.description.getD "Sale", quantity := 1,
                    price_unit := it.attrs.net_total.getD 0 }]
               else lines0,
             state := "posted" }, rfl, rfl, rfl, rfl⟩

theorem processSalesItem_establishes {included : List Node} {st : SyncState}
    {it : SalesInvoiceItem} {cref : Ref} {node : Node}
    (hc : it.relContact = some cref)
    (hn : findInIncluded included "contacts" cref.rid = some node) :
    ∃ m ∈ (processSalesItem included st it).moves,
      m.parasut_id = it.pid ∧ m.move_type = "out_invoice" := by
  cases hexi : searchIdx
    (fun m : Move => m.parasut_id = it.pid ∧ m.move_type = "out_invoice") st.moves with
  | none =>
    obtain ⟨mv, h1, h2, h3, _⟩ := processSalesItem_creates hc hn hexi
    refine ⟨mv, ?_, h1, h2⟩
    rw [h3]
    exact List.mem_append_right _ (List.mem_singleton.mpr rfl)
  | some i =>
    obtain ⟨mv, h1, h2, h3, _⟩ := processSalesItem_updates hc (by rw [hn]; rfl) hexi
    refine ⟨mv, ?_, h1, h2⟩
    rw [h3]
    have hlt : i < st.moves.length := searchIdx_lt_length _ hexi
    refine List.mem_iff_get.mpr ⟨⟨i, by simpa using hlt⟩, ?_⟩
    simp [List.getElem_set_self]

theorem salesFold_establishes {included : List Node} :
    ∀ (items : List SalesInvoiceItem) (st : SyncState) (it : SalesInvoiceItem)
      (cref : Ref) (node : Node),
      it ∈ items → it.relContact = some cref →
      findInIncluded included "contacts" cref.rid = some node →
      ∃ m ∈ (items.foldl (processSalesItem included) st).moves,
        m.parasut_id = it.pid ∧ m.move_type = "out_invoice" := by
  intro items
  induction items with
  | nil => intro st it cref node h; cases h
  | cons a rest ih =>
    intro st it cref node hmem hc hn
    rcases List.mem_cons.mp hmem with rfl | hrest
    · exact salesFold_preserves_out rest _ it.pid (processSalesItem_establishes hc hn)
    · exact ih _ it cref node hrest hc hn

theorem processSalesItem_no_create {included : List Node} {st : SyncState}
    {it : SalesInvoiceItem}
    (hex : it.relContact ≠ Option.none →
      ∃ m ∈ st.moves, m.parasut_id = it.pid ∧ m.move_type = "out_invoice") :
    (processSalesItem included st it).movesCreated = st.movesCreated := by
  unfold processSalesItem
  cases hrc : it.relContact with
  | none => rfl
  | some cref =>
    dsimp only
    obtain ⟨m, hm, hP⟩ := hex (by rw [hrc]; exact Option.noConfusion)
    have hsome := searchIdx_isSome_of_mem
      (fun m : Move => m.parasut_id = it.pid ∧ m.move_type = "out_invoice") hm hP
    obtain ⟨i, hi⟩ := Option.isSome_iff_exists.mp hsome
    rw [hi]
    rcases hres : resolveSalesPartner st.partners included cref.rid with ⟨pi?, p2, pc⟩
    cases pi? with
    | none => rfl
    | some pi => rfl

theorem salesFold_no_creates {included : List Node} :
    ∀ (items : List SalesInvoiceItem) (st : SyncState),
      (∀ it ∈ items, it.relContact ≠ Option.none →
        ∃ m ∈ st.moves, m.parasut_id = it.pid ∧ m.move_type = "out_invoice") →
      (items.foldl (processSalesItem included) st).movesCreated = st.movesCreated := by
  intro items
  induction items with
  | nil => intro st _; rfl
  | cons a rest ih =>
    intro st hinv
    have hstep := @processSalesItem_no_create included st a
      (hinv a (List.mem_cons_self a rest))
    have hrest : ∀ it ∈ rest, it.relContact ≠ Option.none →
        ∃ m ∈ (processSalesItem included st a).moves,
          m.parasut_id = it.pid ∧ m.move_type = "out_invoice" := by
      intro it hit hrc
      exact processSalesItem_preserves_out it.pid (hinv it (List.mem_cons_of_mem _ hit) hrc)
    calc (rest.foldl (processSalesItem included) (processSalesItem included st a)).movesCreated
        = (processSalesItem included st a).movesCreated := ih _ hrest
      _ = st.movesCreated := hstep

theorem salesAction_preserves_out :
    ∀ (batches : List SalesBatch) (st : SyncState) (x : String),
      (∃ m ∈ st.moves, m.parasut_id = x ∧ m.move_type = "out_invoice") →
      ∃ m ∈ (action_sync_sales_invoices batches st).moves,
        m.parasut_id = x ∧ m.move_type = "out_invoice" := by
  intro batches
  induction batches with
  | nil => intro st x hex; exact hex
  | cons b rest ih =>
    intro st x hex
    exact ih _ x (salesFold_preserves_out b.data st x hex)

theorem salesAction_establishes :
    ∀ (batches : List SalesBatch) (st : SyncState) (b : SalesBatch)
      (it : SalesInvoiceItem) (cref : Ref) (node : Node),
      b ∈ batches → it ∈ b.data → it.relContact = some cref →
      findInIncluded b.included "contacts" cref.rid = some node →
      ∃ m ∈ (action_sync_sales_invoices batches st).moves,
        m.parasut_id = it.pid ∧ m.move_type = "out_invoice" := by
  intro batches
  induction batches with
  | nil => intro st b it cref node h; cases h
  | cons b0 rest ih =>
    intro st b it cref node hb hit hc hn
    rcases List.mem_cons.mp hb with rfl | hbrest
    · exact salesAction_preserves_out rest _ it.pid
        (salesFold_establishes b.data st it cref node hit hc hn)
    · exact ih _ b it cref node hbrest hit hc hn

theorem salesAction_no_creates :
    ∀ (batches : List SalesBatch) (st : SyncState),
      (∀ b ∈ batches, ∀ it ∈ b.data, it.relContact ≠ Option.none →
        ∃ m ∈ st.moves, m.parasut_id = it.pid ∧ m.move_type = "out_invoice") →
      (action_sync_sales_invoices batches st).movesCreated = st.movesCreated := by
  intro batches
  induction batches with
  | nil => intro st _; rfl
  | cons b rest ih =>
    intro st hinv
    have hstep : (processSalesBatch st b).movesCreated = st.movesCreated :=
      salesFold_no_creates b.data st (hinv b (List.mem_cons_self b rest))
    have hrest : ∀ b2 ∈ rest, ∀ it ∈ b2.data, it.relContact ≠ Option.none →
        ∃ m ∈ (processSalesBatch st b).moves,
          m.parasut_id = it.pid ∧ m.move_type = "out_invoice" := by
      intro b2 hb2 it hit hrc
      exact salesFold_preserves_out b.data st it.pid
        (hinv b2 (List.mem_cons_of_mem _ hb2) it hit hrc)
    calc (action_sync_sales_invoices rest (processSalesBatch st b)).movesCreated
        = (processSalesBatch st b).movesCreated := ih _ hrest
      _ = st.movesCreated := hstep

theorem processContact_cases (st : ContactsState) (it : ContactItem) :
    (∃ i, ∃ h : i < st.partners.length,
        ((st.partners.get ⟨i, h⟩).parasut_id = some it.pid ∨
          (strTruthy it.attrs.tax_number = true ∧
            (st.partners.get ⟨i, h⟩).vat = it.attrs.tax_number) ∨
          (st.partners.get ⟨i, h⟩).name = it.attrs.name) ∧
        processContact st it =
          ⟨st.partners.set i (contactVals it), st.created, st.updated + 1⟩) ∨
      processContact st it =
        ⟨st.partners ++ [contactVals it], st.created + 1, st.updated⟩ := by
  unfold processContact
  cases hm1 : searchIdx (fun p : Partner => p.parasut_id = some it.pid) st.partners with
  | some i =>
    obtain ⟨hlt, hp⟩ := searchIdx_some _ _ _ hm1
    exact Or.inl ⟨i, hlt, Or.inl hp, rfl⟩
  | none =>
    dsimp only
    by_cases hv : strTruthy (contactVals it).vat
    · rw [if_pos hv]
      cases hm2 : searchIdx (fun p : Partner => p.vat = (contactVals it).vat) st.partners with
      | some i =>
        obtain ⟨hlt, hp⟩ := searchIdx_some _ _ _ hm2
        exact Or.inl ⟨i, hlt, Or.inr (Or.inl ⟨hv, hp⟩), rfl⟩
      | none =>
        dsimp only
        cases hm3 : searchIdx (fun p : Partner => p.name = (contactVals it).name) st.partners with
        | some i =>
          obtain ⟨hlt, hp⟩ := searchIdx_some _ _ _ hm3
          exact Or.inl ⟨i, hlt, Or.inr (Or.inr hp), rfl⟩
        | none => exact Or.inr rfl
    · rw [if_neg hv]
      dsimp only
      cases hm3 : searchIdx (fun p : Partner => p.name = (contactVals it).name) st.partners with
      | some i =>
        obtain ⟨hlt, hp⟩ := searchIdx_some _ _ _ hm3
        exact Or.inl ⟨i, hlt, Or.inr (Or.inr hp), rfl⟩
      | none => exact Or.inr rfl

theorem processContact_tier1 {st : ContactsState} {it : ContactItem} {i : Nat}
    (hm1 : searchIdx (fun p : Partner => p.parasut_id = some it.pid) st.partners = some i) :
    processContact st it =
      ⟨st.partners.set i (contactVals it), st.created, st.updated + 1⟩ := by
  unfold processContact
  rw [hm1]

theorem processContact_writes (st : ContactsState) (it : ContactItem) :
    ∃ j, ∃ hj : j < (processContact st it).partners.length,
      (processContact st it).partners.get ⟨j, hj⟩ = contactVals it := by
  rcases processContact_cases st it with ⟨i, hlt, _, heq⟩ | heq
  · rw [heq]
    refine ⟨i, by simpa using hlt, ?_⟩
    simp [List.getElem_set_self]
  · rw [heq]
    refine ⟨st.partners.length, by simp, ?_⟩
    simp

theorem processContact_keeps {st : ContactsState} {a b : ContactItem} {j : Nat}
    (hpid : b.pid ≠ a.pid) (hname : b.attrs.name ≠ a.attrs.name)
    (hvat : ¬(strTruthy b.attrs.tax_number = true ∧
      b.attrs.tax_number = a.attrs.tax_number))
    (hj : j < st.partners.length)
    (hval : st.partners.get ⟨j, hj⟩ = contactVals b) :
    ∃ hj2 : j < (processContact st a).partners.length,
      (processContact st a).partners.get ⟨j, hj2⟩ = contactVals b := by
  rcases processContact_cases st a with ⟨i, hlt, hpred, heq⟩ | heq
  · rw [heq]
    have hij : j ≠ i := by
      intro hji
      subst hji
      rw [hval] at hpred
      simp only [contactVals] at hpred
      rcases hpred with h1 | ⟨h2a, h2b⟩ | h3
      · exact hpid (Option.some.inj h1)
      · exact hvat ⟨by rw [h2b]; exact h2a, h2b⟩
      · exact hname h3
    refine ⟨by simpa using hj, ?_⟩
    simp only [List.get_eq_getElem, List.getElem_set_ne (fun h => hij h.symm)]
    simpa using hval
  · rw [heq]
    refine ⟨by simp; omega, ?_⟩
    simp only [List.get_eq_getElem, List.getElem_append_left hj]
    simpa using hval

theorem contactsFold_keeps :
    ∀ (items : List ContactItem) (st : ContactsState) (b : ContactItem),
      (∀ a ∈ items, contactCompat b a) →
      (∃ j, ∃ hj : j < st.partners.length, st.partners.get ⟨j, hj⟩ = contactVals b) →
      ∃ j, ∃ hj : j < (items.foldl processContact st).partners.length,
        (items.foldl processContact st).partners.get ⟨j, hj⟩ = contactVals b := by
  intro items
  induction items with
  | nil => intro st b _ h; exact h
  | cons a rest ih =>
    intro st b hcomp ⟨j, hj, hval⟩
    obtain ⟨hpid, hname, hvat⟩ := hcomp a (List.mem_cons_self a rest)
    obtain ⟨hj2, hval2⟩ := processContact_keeps hpid hname hvat hj hval
    exact ih _ b (fun a2 ha2 => hcomp a2 (List.mem_cons_of_mem _ ha2)) ⟨j, hj2, hval2⟩

theorem contactsRun1 :
    ∀ (items : List ContactItem) (st : ContactsState),
      List.Pairwise contactCompat items →
      ∀ it ∈ items,
        ∃ j, ∃ hj : j < (items.foldl processContact st).partners.length,
          (items.foldl processContact st).partners.get ⟨j, hj⟩ = contactVals it := by
  intro items
  induction items with
  | nil => intro st _ it h; cases h
  | cons a rest ih =>
    intro st hpw it hmem
    obtain ⟨hhead, htail⟩ := List.pairwise_cons.mp hpw
    rcases List.mem_cons.mp hmem with rfl | hrest
    · exact contactsFold_keeps rest _ it hhead (processContact_writes st it)
    · exact ih _ htail it hrest

theorem processContact_run2_step {st : ContactsState} {a : ContactItem}
    (hex : ∃ p ∈ st.partners, p.parasut_id = some a.pid) :
    (processContact st a).created = st.created ∧
      ∀ x, (∃ p ∈ st.partners, p.parasut_id = some x) →
        ∃ p ∈ (processContact st a).partners, p.parasut_id = some x := by
  obtain ⟨p, hp, hpk⟩ := hex
  have hsome := searchIdx_isSome_of_mem (fun p : Partner => p.parasut_id = some a.pid) hp hpk
  obtain ⟨i, hm1⟩ := Option.isSome_iff_exists.mp hsome
  rw [processContact_tier1 hm1]
  refine ⟨rfl, ?_⟩
  intro x hx
  refine exists_mem_set_of_exists
    (Q := fun q : Partner => q.parasut_id = some a.pid) hx ?_ ?_
  · intro h
    obtain ⟨hlt, hq⟩ := searchIdx_some _ _ _ hm1
    exact hq
  · intro q hP hQ
    show (contactVals a).parasut_id = some x
    rw [show (contactVals a).parasut_id = some a.pid from rfl, ← hQ]
    exact hP

theorem contactsFold_no_creates :
    ∀ (items : List ContactItem) (st : ContactsState),
      (∀ it ∈ items, ∃ p ∈ st.partners, p.parasut_id = some it.pid) →
      (items.foldl processContact st).created = st.created := by
  intro items
  induction items with
  | nil => intro st _; rfl
  | cons a rest ih =>
    intro st hinv
    obtain ⟨hcre, hpres⟩ := processContact_run2_step (hinv a (List.mem_cons_self a rest))
    have hrest : ∀ it ∈ rest, ∃ p ∈ (processContact st a).partners,
        p.parasut_id = some it.pid :=
      fun it hit => hpres it.pid (hinv it (List.mem_cons_of_mem _ hit))
    calc (rest.foldl processContact (processContact st a)).created
        = (processContact st a).created := ih _ hrest
      _ = st.created := hcre

/-- C1 counterexample: syncing the unchanged three-contact dataset
`ctChainItems` twice from an empty store produces one additional create on
the second run — the second contact steals the first partner through the
shared tax number and the third steals it through the shared name, leaving
the first contact unmatched by external id, tax number and name alike. -/
theorem C1_counterexample :
    (action_sync_contacts ctChainItems
      ⟨(action_sync_contacts ctChainItems ⟨[], 0, 0⟩).partners, 0, 0⟩).created = 1 := by
  decide

/-- C1 (amended: idempotence holds for the contacts orchestrator when the
records are pairwise distinct in external id, name, and truthy tax number,
and for the sales-invoice orchestrator when every referenced contact node is
present in its batch; without those provisos the matching tiers can steal a
previously linked record and force a re-create): after one run, every record
has a tier-1 match — a local entity carrying its external id — and the second
run against the unchanged dataset performs zero additional creates of the
fetched records' entities. -/
theorem C1_second_run :
    (∀ (items : List ContactItem) (st : ContactsState),
        List.Pairwise contactCompat items →
        (∀ it ∈ items, ∃ p ∈ (action_sync_contacts items st).partners,
          p.parasut_id = some it.pid) ∧
          (action_sync_contacts items
            ⟨(action_sync_contacts items st).partners, 0, 0⟩).created = 0) ∧
      ∀ (batches : List SalesBatch) (st : SyncState),
        (∀ b ∈ batches, ∀ it ∈ b.data, ∀ cref, it.relContact = some cref →
          ∃ node, findInIncluded b.included "contacts" cref.rid = some node) →
        (∀ b ∈ batches, ∀ it ∈ b.data, it.relContact ≠ Option.none →
          ∃ m ∈ (action_sync_sales_invoices batches st).moves,
            m.parasut_id = it.pid ∧ m.move_type = "out_invoice") ∧
          (action_sync_sales_invoices batches
              (action_sync_sales_invoices batches st)).movesCreated =
            (action_sync_sales_invoices batches st).movesCreated := by
  constructor
  · intro items st hpw
    have hrun1 : ∀ it ∈ items, ∃ p ∈ (action_sync_contacts items st).partners,
        p.parasut_id = some it.pid := by
      intro it hit
      obtain ⟨j, hj, hval⟩ := contactsRun1 items st hpw it hit
      refine ⟨(action_sync_contacts items st).partners.get ⟨j, hj⟩, List.get_mem _ _ _, ?_⟩
      show ((items.foldl processContact st).partners.get ⟨j, hj⟩).parasut_id = some it.pid
      rw [hval]
      rfl
    refine ⟨hrun1, ?_⟩
    exact contactsFold_no_creates items ⟨(action_sync_contacts items st).partners, 0, 0⟩ hrun1
  · intro batches st hnodes
    have hrun1 : ∀ b ∈ batches, ∀ it ∈ b.data, it.relContact ≠ Option.none →
        ∃ m ∈ (action_sync_sales_invoices batches st).moves,
          m.parasut_id = it.pid ∧ m.move_type = "out_invoice" := by
      intro b hb it hit hrc
      cases hc : it.relContact with
      | none => exact absurd hc hrc
      | some cref =>
        obtain ⟨node, hn⟩ := hnodes b hb it hit cref hc
        exact salesAction_establishes batches st b it cref node hb hit hc hn
    refine ⟨hrun1, ?_⟩
    exact salesAction_no_creates batches (action_sync_sales_invoices batches st)
      (fun b hb it hit hrc => hrun1 b hb it hit hrc)

/-- C1 witness: two compatible contacts and a one-invoice sales dataset with
its contact node included. -/
theorem C1_witness :
    (List.Pairwise contactCompat ctOkItems ∧
        ((∀ it ∈ ctOkItems, ∃ p ∈ (action_sync_contacts ctOkItems ⟨[], 0, 0⟩).partners,
          p.parasut_id = some it.pid) ∧
          (action_sync_contacts ctOkItems
            ⟨(action_sync_contacts ctOkItems ⟨[], 0, 0⟩).partners, 0, 0⟩).created = 0)) ∧
      ((∀ b ∈ salesWitBatches, ∀ it ∈ b.data, ∀ cref, it.relContact = some cref →
          ∃ node, findInIncluded b.included "contacts" cref.rid = some node) ∧
        ((∀ b ∈ salesWitBatches, ∀ it ∈ b.data, it.relContact ≠ Option.none →
          ∃ m ∈ (action_sync_sales_invoices salesWitBatches emptySyncState).moves,
            m.parasut_id = it.pid ∧ m.move_type = "out_invoice") ∧
          (action_sync_sales_invoices salesWitBatches
              (action_sync_sales_invoices salesWitBatches emptySyncState)).movesCreated =
            (action_sync_sales_invoices salesWitBatches emptySyncState).movesCreated)) := by
  have hnode : ∀ b ∈ salesWitBatches, ∀ it ∈ b.data, ∀ cref, it.relContact = some cref →
      ∃ node, findInIncluded b.included "contacts" cref.rid = some node := by
    intro b hb it hit cref hc
    simp only [salesWitBatches, List.mem_singleton] at hb
    subst hb
    simp only [List.mem_singleton] at hit
    subst hit
    simp only at hc
    cases hc
    exact ⟨⟨"contacts", "C1", { name := some "Alice" }, Option.none⟩, by decide⟩
  exact ⟨⟨by decide, C1_second_run.1 ctOkItems ⟨[], 0, 0⟩ (by decide)⟩,
    ⟨hnode, C1_second_run.2 salesWitBatches emptySyncState hnode⟩⟩

/-- C5 witness: a concrete one-item dataset failing on page 2. -/
theorem C5_witness :
    ([1] : List Nat) ≠ [] ∧
      (fetchConnector (failPage2Oracle [1] ([] : List Nat) "boom") = [⟨[1], []⟩] ∧
        fetchSettings "sales_invoices" (failPage2Oracle [1] ([] : List Nat) "boom") =
          Except.error ("Error fetching " ++ "sales_invoices" ++ ": " ++ "boom") ∧
        fetchConnector (failPage2Oracle [1] ([] : List Nat) "boom") =
          fetchConnector (onePageOracle [1] ([] : List Nat))) :=
  ⟨by decide, C5_partial_fetch [1] [] "boom" "sales_invoices" (by decide)⟩
